import Mathlib

/-!
# Verification of the super-cat movement-and-collision core

Shallow embedding of the movement/collision core of the `super_cat`
2D-platformer repository, over exact rational arithmetic:

* `src/super_cat/settings.py`   — physics constants;
* `src/super_cat/entities/base.py`  — `Entity.move_and_collide`;
* `src/super_cat/entities/player.py` — `Player.handle_input`,
  `Player.after_physics` and their helpers;
* `src/super_cat/core/tilemap.py` — `TileMap.friction_under`.

Rectangles follow pygame's `FRect`: `x, y` is the top-left corner and the
`y` axis grows downward; `colliderect` is pygame's strict-overlap test
(degenerate rects never collide; negative sizes are normalised by
min/max, as pygame-ce does).  Fallible code (`friction_under`'s grid
indexing, which can raise `IndexError` in Python) returns `Option`.
-/

namespace SuperCat

/-! ## Constants (settings.py) -/

def GRAVITY : ℚ := 1800
def TERMINAL_V : ℚ := 1400
def MAX_SPEED : ℚ := 260
def ACCEL_GROUND : ℚ := 2800
def DECEL_GROUND : ℚ := 3200
def ACCEL_AIR : ℚ := 900
def DECEL_AIR : ℚ := 1600
def FRICTION_GROUND : ℚ := 1000
def FRICTION_AIR : ℚ := 300
def JUMP_SPEED : ℚ := 640
def COYOTE_TIME : ℚ := 1/5
def JUMP_BUFFER_TIME : ℚ := 6/25
def DROP_THROUGH_TIME : ℚ := 3/20

/-! ## Rectangles (pygame.FRect) -/

@[ext]
structure FRect where
  x : ℚ
  y : ℚ
  w : ℚ
  h : ℚ
  deriving DecidableEq, Repr

namespace FRect

def left (r : FRect) : ℚ := r.x
def right (r : FRect) : ℚ := r.x + r.w
def top (r : FRect) : ℚ := r.y
def bottom (r : FRect) : ℚ := r.y + r.h

def setX (r : FRect) (v : ℚ) : FRect := { r with x := v }
def setY (r : FRect) (v : ℚ) : FRect := { r with y := v }
def setLeft (r : FRect) (v : ℚ) : FRect := { r with x := v }
def setTop (r : FRect) (v : ℚ) : FRect := { r with y := v }
def setRight (r : FRect) (v : ℚ) : FRect := { r with x := v - r.w }
def setBottom (r : FRect) (v : ℚ) : FRect := { r with y := v - r.h }

end FRect

/-- pygame's `colliderect`: rects with zero width or height never collide;
sides are normalised with min/max; overlap is strict (shared edges do not
collide). -/
def colliderect (a b : FRect) : Bool :=
  decide (a.w ≠ 0) && decide (a.h ≠ 0) && decide (b.w ≠ 0) && decide (b.h ≠ 0) &&
  decide (min a.x (a.x + a.w) < max b.x (b.x + b.w)) &&
  decide (min b.x (b.x + b.w) < max a.x (a.x + a.w)) &&
  decide (min a.y (a.y + a.h) < max b.y (b.y + b.h)) &&
  decide (min b.y (b.y + b.h) < max a.y (a.y + a.h))

/-- The body's rectangle meets the interior of `t` (for rects of
nonnegative size this is exactly nonempty intersection with the open
interior; exact edge contact does not count). -/
def interiorOverlap (a t : FRect) : Prop :=
  a.x < t.x + t.w ∧ t.x < a.x + a.w ∧ a.y < t.y + t.h ∧ t.y < a.y + a.h

instance (a t : FRect) : Decidable (interiorOverlap a t) := by
  unfold interiorOverlap; infer_instance

/-! ## Kinematic body (entities/base.py, `Entity`) -/

structure Entity where
  rect : FRect
  velx : ℚ
  vely : ℚ
  on_ground : Bool
  ignore_one_way_timer : ℚ
  deriving DecidableEq, Repr

/-- One horizontal push of `move_and_collide` (the loop body over the
horizontal hit list; `vel.x` is not changed by this pass). -/
def hResolve (vx : ℚ) (r : FRect) (t : FRect) : FRect :=
  if vx > 0 then r.setRight t.left
  else if vx < 0 then r.setLeft t.right
  else r

/-- One vertical push of `move_and_collide` (the loop body over the
vertical solid hit list; state is (rect, vel.y, on_ground) and `vel.y`
is zeroed on the first hit). -/
def vResolve (s : FRect × ℚ × Bool) (t : FRect) : FRect × ℚ × Bool :=
  if s.2.1 > 0 then (s.1.setBottom t.top, 0, true)
  else if s.2.1 < 0 then (s.1.setTop t.bottom, 0, s.2.2)
  else s

/-- One push of the one-way loop of `move_and_collide`. -/
def owResolve (s : FRect × ℚ × Bool) (t : FRect) : FRect × ℚ × Bool :=
  (s.1.setBottom t.top, 0, true)

/-- The body's rectangle after the horizontal section of
`move_and_collide`: integrate `vel.x`, then push out of every solid in
the precomputed hit list. -/
def afterHorizontal (e : Entity) (dt : ℚ) (solids : List FRect) : FRect :=
  let r1 := e.rect.setX (e.rect.x + e.velx * dt)
  (solids.filter (fun t => colliderect r1 t)).foldl (hResolve e.velx) r1

/-- The `prev_bottom` value recorded by `move_and_collide` just before vertical
integration. -/
def prevBottom (e : Entity) (dt : ℚ) (solids : List FRect) : ℚ :=
  (afterHorizontal e dt solids).bottom

/-- State (rect, vel.y, on_ground) after the vertical-solids section of
`move_and_collide`: gravity with terminal velocity, integrate, reset
`on_ground`, then resolve against the precomputed solid hit list. -/
def afterVertical (e : Entity) (dt : ℚ) (solids : List FRect) :
    FRect × ℚ × Bool :=
  let r2 := afterHorizontal e dt solids
  let vy1 := min (e.vely + GRAVITY * dt) TERMINAL_V
  let r3 := r2.setY (r2.y + vy1 * dt)
  (solids.filter (fun t => colliderect r3 t)).foldl vResolve (r3, vy1, false)

/-- The body's rectangle after the solid passes of `move_and_collide`
(the rectangle the one-way pass tests against). -/
def rectAfterSolids (e : Entity) (dt : ℚ) (solids : List FRect) : FRect :=
  (afterVertical e dt solids).1

/-- The `vel.y` value after the solid passes of `move_and_collide` (the value the
one-way pass tests with `>= 0`). -/
def velAfterSolids (e : Entity) (dt : ℚ) (solids : List FRect) : ℚ :=
  (afterVertical e dt solids).2.1

/-- The `on_ground` flag after the solid passes of `move_and_collide`. -/
def ogAfterSolids (e : Entity) (dt : ℚ) (solids : List FRect) : Bool :=
  (afterVertical e dt solids).2.2

/-- The one-way hit list of `move_and_collide`: one-ways overlapping the
post-solids rect whose top edge is at or below the recorded
`prev_bottom`. -/
def oneWayHits (e : Entity) (dt : ℚ) (solids oneWays : List FRect) :
    List FRect :=
  oneWays.filter (fun t =>
    colliderect (rectAfterSolids e dt solids) t &&
    decide (prevBottom e dt solids ≤ t.top))

/-- Embeds `Entity.move_and_collide(dt, solids, one_ways)` from
`entities/base.py`: horizontal integrate-and-resolve, vertical
integrate-and-resolve against solids, then the one-way pass (skipped
while `ignore_one_way_timer > 0`, which is then ticked down; otherwise
applied only when `vel.y >= 0`, to the one-way hit list). -/
def moveAndCollide (e : Entity) (dt : ℚ) (solids oneWays : List FRect) :
    Entity :=
  if e.ignore_one_way_timer > 0 then
    { rect := rectAfterSolids e dt solids, velx := e.velx,
      vely := velAfterSolids e dt solids,
      on_ground := ogAfterSolids e dt solids,
      ignore_one_way_timer := max 0 (e.ignore_one_way_timer - dt) }
  else if 0 ≤ velAfterSolids e dt solids then
    { rect := ((oneWayHits e dt solids oneWays).foldl owResolve
        (afterVertical e dt solids)).1,
      velx := e.velx,
      vely := ((oneWayHits e dt solids oneWays).foldl owResolve
        (afterVertical e dt solids)).2.1,
      on_ground := ((oneWayHits e dt solids oneWays).foldl owResolve
        (afterVertical e dt solids)).2.2,
      ignore_one_way_timer := e.ignore_one_way_timer }
  else
    { rect := rectAfterSolids e dt solids, velx := e.velx,
      vely := velAfterSolids e dt solids,
      on_ground := ogAfterSolids e dt solids,
      ignore_one_way_timer := e.ignore_one_way_timer }

/-! ## Input snapshot (merged key state sampled once per frame) -/

/-- The per-frame key state the player code reads, with each action's key
group already merged: `left` is LEFT-or-A, `right` is RIGHT-or-D, `jump`
is SPACE-or-UP, `down` is DOWN-or-S. -/
structure Keys where
  left : Bool
  right : Bool
  jump : Bool
  down : Bool
  deriving DecidableEq, Repr

/-- Embeds `Player._set_direction`: start at 0, subtract 1 for left, add 1 for
right. -/
def keysDir (k : Keys) : Int :=
  (if k.right then 1 else 0) - (if k.left then 1 else 0)

/-! ## Player (entities/player.py) -/

structure Player where
  ent : Entity
  facing : Int
  coyote : ℚ
  jumpBuffer : ℚ
  prevJumpDown : Bool
  dropIntent : ℚ
  suppressJump : ℚ
  inputDir : Int
  /-- Field `surface_friction`, assigned onto the player by `Game.run` each
  frame (the `FrictionSample`); nothing in `Player` reads it. -/
  surfaceFriction : ℚ
  deriving DecidableEq, Repr

/-- Embeds `Player._sign`: `(x > 0) - (x < 0)`. -/
def psign (x : ℚ) : Int :=
  (if x > 0 then 1 else 0) - (if x < 0 then 1 else 0)

/-- Embeds `Player._approach`: move `current` toward `target` by at most
`delta`. -/
def approach (current target delta : ℚ) : ℚ :=
  if current < target then min (current + delta) target
  else max (current - delta) target

/-- Embeds `Player._clamp_to_max_speed`. -/
def clampToMaxSpeed (vx : ℚ) : ℚ :=
  if |vx| ≤ MAX_SPEED then vx else MAX_SPEED * (psign vx : ℚ)

/-- Embeds `Player._next_velocity_x`: two-phase decel/accel when there is
horizontal input, constant-rate friction toward 0 otherwise.  The
`1e-5` float literal of the source is the exact rational `1/100000`
here. -/
def nextVelocityX (vx dt : ℚ) (inputDir : Int) (onGround : Bool) : ℚ :=
  let target : ℚ := (inputDir : ℚ) * MAX_SPEED
  let sameDir := psign vx = psign target ∨ target = 0
  let needDecel := ¬ sameDir ∧ |vx| > 1/100000
  if inputDir ≠ 0 then
    let accel := if onGround then ACCEL_GROUND else ACCEL_AIR
    let vx1 :=
      if needDecel then
        approach vx 0 ((if onGround then DECEL_GROUND else DECEL_AIR) * dt)
      else vx
    approach vx1 target (accel * dt)
  else
    approach vx 0 (dt * (if onGround then FRICTION_GROUND else FRICTION_AIR))

/-- Embeds `Player._record_drop_intent`. -/
def recordDropIntent (p : Player) : Player :=
  { p with dropIntent := DROP_THROUGH_TIME,
           suppressJump := max p.suppressJump (DROP_THROUGH_TIME * (1/2)),
           jumpBuffer := 0,
           coyote := 0 }

/-- Embeds `Player._record_jump_intent`. -/
def recordJumpIntent (p : Player) : Player :=
  { p with jumpBuffer := JUMP_BUFFER_TIME }

/-- One timer update of `Player._tick_timers`: tick toward zero, clamped
at zero, only when currently positive. -/
def tickOne (x dt : ℚ) : ℚ :=
  if x > 0 then max 0 (x - dt) else x

/-- Embeds `Player._tick_timers` (`coyote_timer` is not ticked here). -/
def tickTimers (p : Player) (dt : ℚ) : Player :=
  { p with jumpBuffer := tickOne p.jumpBuffer dt,
           suppressJump := tickOne p.suppressJump dt,
           dropIntent := tickOne p.dropIntent dt }

/-- Embeds `Player.handle_input(dt)` (the pre-physics step): set direction and
facing, acceleration-shaped horizontal velocity clamped to `MAX_SPEED`,
edge-triggered drop/jump intent, update `prev` flag, tick timers. -/
def handleInput (p : Player) (dt : ℚ) (k : Keys) : Player :=
  let dir := keysDir k
  let fac := if dir ≠ 0 then (if dir > 0 then 1 else -1) else p.facing
  let vx := clampToMaxSpeed (nextVelocityX p.ent.velx dt dir p.ent.on_ground)
  let p1 : Player :=
    { p with inputDir := dir, facing := fac, ent := { p.ent with velx := vx } }
  let p2 :=
    if k.down ∧ k.jump ∧ p1.prevJumpDown = false then recordDropIntent p1
    else if k.jump ∧ p1.prevJumpDown = false then recordJumpIntent p1
    else p1
  tickTimers { p2 with prevJumpDown := k.jump } dt

/-- Embeds `Player.after_physics(dt)` (the post-physics step): refresh or tick
coyote, consume drop intent when grounded (early return), withhold jumps
while suppressed (early return), else consume a buffered jump when
grounded or within coyote time. -/
def afterPhysics (p : Player) (dt : ℚ) : Player :=
  let c :=
    if p.ent.on_ground then COYOTE_TIME
    else if p.coyote > 0 then max 0 (p.coyote - dt) else p.coyote
  let p1 := { p with coyote := c }
  if p1.dropIntent > 0 ∧ p1.ent.on_ground then
    { p1 with
      ent := { p1.ent with
                 ignore_one_way_timer := DROP_THROUGH_TIME
                 vely := if p1.ent.vely < 30 then 30 else p1.ent.vely }
      suppressJump := max p1.suppressJump (DROP_THROUGH_TIME * (1/2))
      dropIntent := 0 }
  else if p1.suppressJump > 0 then p1
  else if p1.jumpBuffer > 0 ∧ (p1.ent.on_ground ∨ p1.coyote > 0) then
    { p1 with
      ent := { p1.ent with vely := -JUMP_SPEED, on_ground := false }
      coyote := 0
      jumpBuffer := 0 }
  else p1

/-! ## One simulated frame (the order `Game.run` uses) -/

/-- The external inputs of one frame: elapsed time, key state, and the
obstacle sets supplied to the collision step. -/
structure FrameIn where
  dt : ℚ
  keys : Keys
  solids : List FRect
  oneWays : List FRect
  deriving DecidableEq, Repr

/-- The collision step applied to the player's body. -/
def physStep (p : Player) (dt : ℚ) (solids oneWays : List FRect) : Player :=
  { p with ent := moveAndCollide p.ent dt solids oneWays }

/-- The player state right after the collision step of a frame (before
`after_physics`). -/
def midFrame (p : Player) (f : FrameIn) : Player :=
  physStep (handleInput p f.dt f.keys) f.dt f.solids f.oneWays

/-- One complete frame as driven by `Game.run`:
`handle_input`, `move_and_collide`, `after_physics`. -/
def frame (p : Player) (f : FrameIn) : Player :=
  afterPhysics (midFrame p f) f.dt

/-- Run a list of frames in order. -/
def runFrames (p : Player) (fs : List FrameIn) : Player :=
  fs.foldl frame p

/-- The body stays airborne through every collision step of the given
frames, run in order. -/
def airborneRun : Player → List FrameIn → Bool
  | _, [] => true
  | p, f :: fs => ((midFrame p f).ent.on_ground == false) && airborneRun (frame p f) fs

/-! ## Surface friction lookup (core/tilemap.py) -/

/-- Python `int()` truncation toward zero, on rationals. -/
def pyInt (q : ℚ) : Int :=
  if 0 ≤ q then ⌊q⌋ else ⌈q⌉

/-- The tile map as `friction_under` sees it: the CSV grid
(`-1` = empty), tile size, and the per-index friction table
(`props.get(idx).friction`, total with default 1.0). -/
structure TileMap where
  grid : List (List Int)
  tile_w : Int
  tile_h : Int
  props : Int → ℚ

/-- Embeds `len(self.grid)`. -/
def TileMap.hgt (tm : TileMap) : Nat := tm.grid.length

/-- Embeds `len(self.grid[0]) if self.h else 0`. -/
def TileMap.wid (tm : TileMap) : Nat := (tm.grid.headI).length

/-- Embeds `TileMap.friction_under(rect)`: sample the tile row just under the
rect's feet and average the friction of the non-empty tiles in the
clamped column span.  A grid access that would raise `IndexError` in
Python (a ragged row shorter than row 0) yields `none`. -/
def frictionUnder (tm : TileMap) (rect : FRect) : Option ℚ :=
  if tm.grid = [] then some 1
  else
    let sampleY := pyInt rect.bottom + 1
    let row := Int.fdiv sampleY tm.tile_h
    if row < 0 ∨ (tm.hgt : Int) ≤ row then some 1
    else
      let lft := pyInt rect.left
      let rgt := pyInt rect.right - 1
      let startCol := max 0 (Int.fdiv lft tm.tile_w)
      let endCol := min ((tm.wid : Int) - 1) (Int.fdiv rgt tm.tile_w)
      let cols := (List.range (endCol + 1 - startCol).toNat).map
        (fun i => startCol + (i : Int))
      let access := fun (c : Int) =>
        (tm.grid.get? row.toNat).bind (fun r => r.get? c.toNat)
      (cols.mapM access).map (fun idxs =>
        let frictions := (idxs.filter (fun i => i ≠ -1)).map tm.props
        if frictions = [] then 1 else frictions.sum / frictions.length)

/-- Sum of the elapsed times of a frame list. -/
def sumDt (fs : List FrameIn) : ℚ := (fs.map FrameIn.dt).sum

/-! ## Concrete instances used by counterexamples and witnesses -/

/-- Key state with nothing pressed. -/
def keysNone : Keys := ⟨false, false, false, false⟩

/-- Key state with only the jump key pressed. -/
def keysJump : Keys := ⟨false, false, true, false⟩

/-- A 32×32 solid tile at the origin. -/
def tileO : FRect := ⟨0, 0, 32, 32⟩

/-- A body already overlapping `tileO`, at rest. -/
def bodyInTile : Entity := ⟨⟨4, 4, 24, 32⟩, 0, 0, false, 0⟩

/-- A grounded player with leftover rightward speed 100 whose sampled
surface friction is 1/2 (an icy tile). -/
def icyPlayer : Player :=
  { ent := ⟨⟨0, 8, 24, 32⟩, 100, 0, true, 0⟩
    facing := 1, coyote := COYOTE_TIME, jumpBuffer := 0, prevJumpDown := false
    dropIntent := 0, suppressJump := 0, inputDir := 0, surfaceFriction := 1/2 }

/-- A player with all three ticking timers positive. -/
def timerPlayer : Player :=
  { ent := ⟨⟨0, 8, 24, 32⟩, 0, 0, true, 0⟩
    facing := 1, coyote := 1/10, jumpBuffer := 6/25, prevJumpDown := false
    dropIntent := 1/20, suppressJump := 1/10, inputDir := 0, surfaceFriction := 1 }

/-- An airborne player inside a low tunnel, with the coyote window still
open (it just walked off a ledge). -/
def tunnelPlayer : Player :=
  { ent := ⟨⟨36, 90, 24, 32⟩, 0, 0, false, 0⟩
    facing := 1, coyote := COYOTE_TIME, jumpBuffer := 0, prevJumpDown := false
    dropIntent := 0, suppressJump := 0, inputDir := 0, surfaceFriction := 1 }

/-- The tunnel: a ceiling slab (bottom edge y = 80) and a floor slab
(top edge y = 133), 33 px apart. -/
def tunnelSolids : List FRect := [⟨0, 40, 96, 40⟩, ⟨0, 133, 96, 32⟩]

/-- Tunnel run, frame 1: jump pressed while airborne. -/
def tunnelF0 : FrameIn := ⟨1/100, keysJump, tunnelSolids, []⟩

/-- Tunnel run, frame 2: coast (the body bonks the ceiling). -/
def tunnelF1 : FrameIn := ⟨1/20, keysNone, tunnelSolids, []⟩

/-- Tunnel run, frame 3: coast (the body falls onto the floor). -/
def tunnelF2 : FrameIn := ⟨3/25, keysNone, tunnelSolids, []⟩

/-- An airborne player whose coyote window has expired, falling from
rest above a floor. -/
def fallingPlayer : Player :=
  { ent := ⟨⟨0, 0, 24, 32⟩, 0, 0, false, 0⟩
    facing := 1, coyote := 0, jumpBuffer := 0, prevJumpDown := false
    dropIntent := 0, suppressJump := 0, inputDir := 0, surfaceFriction := 1 }

/-- A floor slab whose top edge is y = 60. -/
def floorSolids : List FRect := [⟨0, 60, 96, 32⟩]

/-- Falling run, press frame (stays airborne). -/
def fallF0 : FrameIn := ⟨1/10, keysJump, floorSolids, []⟩

/-- Falling run, landing frame. -/
def fallF1 : FrameIn := ⟨1/10, keysNone, floorSolids, []⟩

/-- A grounded player that has just left the ground: airborne with a
full coyote window and no pending intents. -/
def ledgePlayer : Player :=
  { ent := ⟨⟨0, 0, 24, 32⟩, 0, 0, true, 0⟩
    facing := 1, coyote := COYOTE_TIME, jumpBuffer := 0, prevJumpDown := false
    dropIntent := 0, suppressJump := 0, inputDir := 0, surfaceFriction := 1 }

/-- Coyote run A: one airborne coast frame of 0.1 s with no obstacles. -/
def coastF0 : FrameIn := ⟨1/10, keysNone, [], []⟩

/-- Coyote run A: press frame 0.05 s (accumulated 0.15 s < 0.2 s). -/
def pressF0 : FrameIn := ⟨1/20, keysJump, [], []⟩

/-- Coyote run B: one airborne coast frame of 0.25 s with no obstacles. -/
def coastF1 : FrameIn := ⟨1/4, keysNone, [], []⟩

/-- Coyote run B: press frame 0.01 s (accumulated after 0.25 s ≥ 0.2 s). -/
def pressF1 : FrameIn := ⟨1/100, keysJump, [], []⟩

/-- A body rising fast (a jump in progress). -/
def risingBody : Entity := ⟨⟨0, 0, 24, 32⟩, 0, -640, false, 0⟩

/-- A thin one-way platform below `risingBody`. -/
def thinOneWay : FRect := ⟨0, 40, 32, 8⟩

/-- A body at rest whose feet sit exactly on the top edge of `restTile`. -/
def restingBody : Entity := ⟨⟨0, 8, 24, 32⟩, 0, 0, true, 0⟩

/-- The platform under `restingBody` (top edge y = 40). -/
def restTile : FRect := ⟨0, 40, 32, 32⟩

/-- A ragged grid: row 0 has three columns, row 1 has one. -/
def raggedMap : TileMap := ⟨[[0, 0, 0], [0]], 32, 32, fun _ => 1⟩

/-- A query rect over column 1 of row 1 of `raggedMap` (feet at y = 40). -/
def raggedQuery : FRect := ⟨40, 8, 24, 32⟩

/-- A grounded player with drop intent pending and the suppress window
open. -/
def dropPlayer : Player :=
  { ent := ⟨⟨0, 8, 24, 32⟩, 0, 0, true, 0⟩
    facing := 1, coyote := COYOTE_TIME, jumpBuffer := 1/10, prevJumpDown := false
    dropIntent := DROP_THROUGH_TIME, suppressJump := DROP_THROUGH_TIME * (1/2)
    inputDir := 0, surfaceFriction := 1 }

/-! ## Helper lemmas: geometry and the collision passes -/

lemma colliderect_pos_iff {a t : FRect} (ha : 0 < a.w) (hb : 0 < a.h)
    (hc : 0 < t.w) (hd : 0 < t.h) :
    colliderect a t = true ↔ interiorOverlap a t := by
  unfold colliderect interiorOverlap
  rw [min_eq_left (by linarith : a.x ≤ a.x + a.w),
      min_eq_left (by linarith : t.x ≤ t.x + t.w),
      min_eq_left (by linarith : a.y ≤ a.y + a.h),
      min_eq_left (by linarith : t.y ≤ t.y + t.h),
      max_eq_right (by linarith : a.x ≤ a.x + a.w),
      max_eq_right (by linarith : t.x ≤ t.x + t.w),
      max_eq_right (by linarith : a.y ≤ a.y + a.h),
      max_eq_right (by linarith : t.y ≤ t.y + t.h)]
  simp only [Bool.and_eq_true, decide_eq_true_eq]
  constructor
  · rintro ⟨⟨⟨⟨⟨⟨⟨-, -⟩, -⟩, -⟩, h1⟩, h2⟩, h3⟩, h4⟩
    exact ⟨h1, h2, h3, h4⟩
  · rintro ⟨h1, h2, h3, h4⟩
    exact ⟨⟨⟨⟨⟨⟨⟨ha.ne', hb.ne'⟩, hc.ne'⟩, hd.ne'⟩, h1⟩, h2⟩, h3⟩, h4⟩

lemma foldl_hResolve_zero (l : List FRect) (r : FRect) :
    l.foldl (hResolve 0) r = r := by
  induction l generalizing r with
  | nil => rfl
  | cons a l ih =>
    have h : hResolve 0 r a = r := by simp [hResolve]
    simpa [List.foldl, h] using ih r

lemma foldl_vResolve_zero (l : List FRect) (r : FRect) (og : Bool) :
    l.foldl vResolve (r, (0 : ℚ), og) = (r, 0, og) := by
  induction l generalizing r og with
  | nil => rfl
  | cons a l ih =>
    have h : vResolve (r, (0 : ℚ), og) a = (r, 0, og) := by simp [vResolve]
    simpa [List.foldl, h] using ih r og

lemma foldl_owResolve_x (l : List FRect) (s : FRect × ℚ × Bool) :
    ((l.foldl owResolve s).1).x = s.1.x ∧ ((l.foldl owResolve s).1).w = s.1.w := by
  induction l generalizing s with
  | nil => exact ⟨rfl, rfl⟩
  | cons a l ih =>
    have h := ih (owResolve s a)
    simpa [List.foldl, owResolve, FRect.setBottom] using h

lemma afterHorizontal_singleton (e : Entity) (dt : ℚ) (t : FRect) :
    afterHorizontal e dt [t] =
      (if colliderect (e.rect.setX (e.rect.x + e.velx * dt)) t
       then hResolve e.velx (e.rect.setX (e.rect.x + e.velx * dt)) t
       else e.rect.setX (e.rect.x + e.velx * dt)) := by
  unfold afterHorizontal
  by_cases hc : colliderect (e.rect.setX (e.rect.x + e.velx * dt)) t = true
  · simp [hc]
  · simp [hc]

lemma afterHorizontal_single_no_overlap (e : Entity) (dt : ℚ) (t : FRect)
    (hew : 0 < e.rect.w) (heh : 0 < e.rect.h)
    (htw : 0 < t.w) (hth : 0 < t.h)
    (h0 : ¬ interiorOverlap e.rect t) :
    ¬ interiorOverlap (afterHorizontal e dt [t]) t ∧
    (afterHorizontal e dt [t]).w = e.rect.w ∧
    (afterHorizontal e dt [t]).h = e.rect.h := by
  rw [afterHorizontal_singleton]
  by_cases hc : colliderect (e.rect.setX (e.rect.x + e.velx * dt)) t = true
  · rw [if_pos hc]
    unfold hResolve
    rcases lt_trichotomy e.velx 0 with hv | hv | hv
    · rw [if_neg (by linarith), if_pos hv]
      refine ⟨?_, rfl, rfl⟩
      rintro ⟨h1, -, -, -⟩
      simp only [FRect.setLeft, FRect.setX, FRect.right] at h1
      exact absurd h1 (lt_irrefl _)
    · -- vel.x = 0: the rect did not move, contradicting the assumption
      have hov : interiorOverlap (e.rect.setX (e.rect.x + e.velx * dt)) t :=
        (colliderect_pos_iff (a := e.rect.setX (e.rect.x + e.velx * dt))
          hew heh htw hth).1 hc
      rw [hv] at hov
      simp only [FRect.setX, interiorOverlap, zero_mul, add_zero] at hov
      exact absurd hov h0
    · rw [if_pos hv]
      refine ⟨?_, rfl, rfl⟩
      rintro ⟨-, h2, -, -⟩
      simp only [FRect.setRight, FRect.setX, FRect.left] at h2
      have : t.x < t.x := by linarith
      exact absurd this (lt_irrefl _)
  · rw [if_neg hc]
    refine ⟨?_, rfl, rfl⟩
    intro hov
    exact hc ((colliderect_pos_iff (a := e.rect.setX (e.rect.x + e.velx * dt))
      hew heh htw hth).2 hov)

lemma afterVertical_singleton (e : Entity) (dt : ℚ) (t : FRect) :
    afterVertical e dt [t] =
      (if colliderect ((afterHorizontal e dt [t]).setY
            ((afterHorizontal e dt [t]).y + min (e.vely + GRAVITY * dt) TERMINAL_V * dt)) t
       then vResolve ((afterHorizontal e dt [t]).setY
            ((afterHorizontal e dt [t]).y + min (e.vely + GRAVITY * dt) TERMINAL_V * dt),
            min (e.vely + GRAVITY * dt) TERMINAL_V, false) t
       else ((afterHorizontal e dt [t]).setY
            ((afterHorizontal e dt [t]).y + min (e.vely + GRAVITY * dt) TERMINAL_V * dt),
            min (e.vely + GRAVITY * dt) TERMINAL_V, false)) := by
  unfold afterVertical
  by_cases hc : colliderect ((afterHorizontal e dt [t]).setY
      ((afterHorizontal e dt [t]).y + min (e.vely + GRAVITY * dt) TERMINAL_V * dt)) t = true
  · simp [hc]
  · simp [hc]

lemma rectAfterSolids_single_no_overlap (e : Entity) (dt : ℚ) (t : FRect)
    (hew : 0 < e.rect.w) (heh : 0 < e.rect.h)
    (htw : 0 < t.w) (hth : 0 < t.h)
    (h0 : ¬ interiorOverlap e.rect t) :
    ¬ interiorOverlap (rectAfterSolids e dt [t]) t := by
  obtain ⟨hH, hHw, hHh⟩ :=
    afterHorizontal_single_no_overlap e dt t hew heh htw hth h0
  unfold rectAfterSolids
  rw [afterVertical_singleton]
  by_cases hc : colliderect ((afterHorizontal e dt [t]).setY
      ((afterHorizontal e dt [t]).y + min (e.vely + GRAVITY * dt) TERMINAL_V * dt)) t = true
  · rw [if_pos hc]
    unfold vResolve
    rcases lt_trichotomy (min (e.vely + GRAVITY * dt) TERMINAL_V) 0 with hv | hv | hv
    · rw [if_neg (by exact not_lt.2 (by linarith)), if_pos (by exact hv)]
      rintro ⟨-, -, h3, -⟩
      simp only [FRect.setTop, FRect.setY, FRect.bottom] at h3
      exact absurd h3 (lt_irrefl _)
    · -- vel.y = 0 after gravity: the rect did not move vertically
      have hov := (colliderect_pos_iff (a := (afterHorizontal e dt [t]).setY
        ((afterHorizontal e dt [t]).y + min (e.vely + GRAVITY * dt) TERMINAL_V * dt))
        (by simpa [FRect.setY] using hHw ▸ hew)
        (by simpa [FRect.setY] using hHh ▸ heh) htw hth).1 hc
      rw [hv] at hov
      simp only [FRect.setY, interiorOverlap, zero_mul, add_zero] at hov
      exact absurd hov hH
    · rw [if_pos hv]
      rintro ⟨-, -, -, h4⟩
      simp only [FRect.setBottom, FRect.setY, FRect.top] at h4
      have : t.y < t.y := by linarith
      exact absurd this (lt_irrefl _)
  · rw [if_neg hc]
    intro hov
    exact hc ((colliderect_pos_iff
      (by simpa [FRect.setY] using hHw ▸ hew)
      (by simpa [FRect.setY] using hHh ▸ heh) htw hth).2 hov)

lemma moveAndCollide_velx (e : Entity) (dt : ℚ) (s o : List FRect) :
    (moveAndCollide e dt s o).velx = e.velx := by
  unfold moveAndCollide
  split
  · rfl
  · split <;> rfl

lemma moveAndCollide_rect_x (e : Entity) (dt : ℚ) (s o : List FRect) :
    (moveAndCollide e dt s o).rect.x = (rectAfterSolids e dt s).x ∧
    (moveAndCollide e dt s o).rect.w = (rectAfterSolids e dt s).w := by
  unfold moveAndCollide rectAfterSolids
  split
  · exact ⟨rfl, rfl⟩
  · split
    · exact foldl_owResolve_x _ _
    · exact ⟨rfl, rfl⟩

lemma moveAndCollide_rect_noOneWays (e : Entity) (dt : ℚ) (s : List FRect) :
    (moveAndCollide e dt s []).rect = rectAfterSolids e dt s := by
  unfold moveAndCollide rectAfterSolids
  split
  · rfl
  · split <;> rfl

/-! ## Helper lemmas: timers and the player's two steps -/

lemma tickOne_zero (dt : ℚ) : tickOne 0 dt = 0 := by
  simp [tickOne]

lemma tickOne_eq_max (x dt : ℚ) (hx : 0 ≤ x) (hdt : 0 ≤ dt) :
    tickOne x dt = max 0 (x - dt) := by
  unfold tickOne
  rcases eq_or_lt_of_le hx with h | h
  · rw [if_neg (by rw [← h]; exact lt_irrefl 0), ← h,
        max_eq_left (by linarith)]
  · rw [if_pos h]

lemma max_zero_sub_sub (b d S : ℚ) (hS : 0 ≤ S) :
    max 0 (max 0 (b - d) - S) = max 0 (b - (d + S)) := by
  rcases le_or_lt 0 (b - d) with h | h
  · rw [max_eq_right h, sub_sub]
  · rw [max_eq_left h.le, max_eq_left (by linarith),
        max_eq_left (by linarith)]

lemma sumDt_nil : sumDt [] = 0 := rfl

lemma sumDt_cons (f : FrameIn) (fs : List FrameIn) :
    sumDt (f :: fs) = f.dt + sumDt fs := by
  simp [sumDt]

lemma sumDt_nonneg (fs : List FrameIn) (h : ∀ f ∈ fs, 0 ≤ f.dt) :
    0 ≤ sumDt fs := by
  induction fs with
  | nil => simp [sumDt]
  | cons f fs ih =>
    rw [sumDt_cons]
    have h1 := h f (by simp)
    have h2 := ih (fun g hg => h g (by simp [hg]))
    linarith

lemma handleInput_nojump (p : Player) (dt : ℚ) (k : Keys)
    (hj : k.jump = false) :
    (handleInput p dt k).coyote = p.coyote ∧
    (handleInput p dt k).jumpBuffer = tickOne p.jumpBuffer dt ∧
    (handleInput p dt k).suppressJump = tickOne p.suppressJump dt ∧
    (handleInput p dt k).dropIntent = tickOne p.dropIntent dt ∧
    (handleInput p dt k).prevJumpDown = false ∧
    (handleInput p dt k).ent.vely = p.ent.vely ∧
    (handleInput p dt k).ent.rect = p.ent.rect ∧
    (handleInput p dt k).ent.on_ground = p.ent.on_ground ∧
    (handleInput p dt k).ent.ignore_one_way_timer = p.ent.ignore_one_way_timer := by
  simp [handleInput, tickTimers, hj]

lemma handleInput_press (p : Player) (dt : ℚ) (k : Keys)
    (hj : k.jump = true) (hd : k.down = false) (hp : p.prevJumpDown = false) :
    (handleInput p dt k).coyote = p.coyote ∧
    (handleInput p dt k).jumpBuffer = tickOne JUMP_BUFFER_TIME dt ∧
    (handleInput p dt k).suppressJump = tickOne p.suppressJump dt ∧
    (handleInput p dt k).dropIntent = tickOne p.dropIntent dt ∧
    (handleInput p dt k).prevJumpDown = true ∧
    (handleInput p dt k).ent.vely = p.ent.vely ∧
    (handleInput p dt k).ent.rect = p.ent.rect ∧
    (handleInput p dt k).ent.on_ground = p.ent.on_ground ∧
    (handleInput p dt k).ent.ignore_one_way_timer = p.ent.ignore_one_way_timer := by
  simp [handleInput, tickTimers, recordJumpIntent, hj, hd, hp]

lemma handleInput_dropPress (p : Player) (dt : ℚ) (k : Keys)
    (hj : k.jump = true) (hd : k.down = true) (hp : p.prevJumpDown = false) :
    (handleInput p dt k).coyote = 0 ∧
    (handleInput p dt k).jumpBuffer = 0 ∧
    (handleInput p dt k).suppressJump =
      tickOne (max p.suppressJump (DROP_THROUGH_TIME * (1/2))) dt ∧
    (handleInput p dt k).dropIntent = tickOne DROP_THROUGH_TIME dt ∧
    (handleInput p dt k).prevJumpDown = true := by
  simp [handleInput, tickTimers, recordDropIntent, hj, hd, hp, tickOne_zero]

lemma handleInput_velx (p : Player) (dt : ℚ) (k : Keys) :
    (handleInput p dt k).ent.velx =
      clampToMaxSpeed (nextVelocityX p.ent.velx dt (keysDir k) p.ent.on_ground) := by
  by_cases h1 : k.down = true ∧ k.jump = true ∧ p.prevJumpDown = false
  · simp [handleInput, tickTimers, recordDropIntent, h1]
  · by_cases h2 : k.jump = true ∧ p.prevJumpDown = false
    · simp [handleInput, tickTimers, recordDropIntent, recordJumpIntent, h1, h2]
      split <;> rfl
    · simp [handleInput, tickTimers, h1, h2]

lemma physStep_fields (p : Player) (dt : ℚ) (s o : List FRect) :
    (physStep p dt s o).coyote = p.coyote ∧
    (physStep p dt s o).jumpBuffer = p.jumpBuffer ∧
    (physStep p dt s o).suppressJump = p.suppressJump ∧
    (physStep p dt s o).dropIntent = p.dropIntent ∧
    (physStep p dt s o).prevJumpDown = p.prevJumpDown ∧
    (physStep p dt s o).ent = moveAndCollide p.ent dt s o :=
  ⟨rfl, rfl, rfl, rfl, rfl, rfl⟩

lemma afterPhysics_nofire (p : Player) (dt : ℚ)
    (hog : p.ent.on_ground = false) (hdrop : p.dropIntent = 0)
    (hsup : p.suppressJump = 0) (hnf : p.jumpBuffer = 0 ∨ p.coyote = 0) :
    afterPhysics p dt = { p with coyote := tickOne p.coyote dt } := by
  rcases hnf with hb | hcoy
  · simp [afterPhysics, hog, hdrop, hsup, hb, tickOne]
  · simp [afterPhysics, hog, hdrop, hsup, hcoy, tickOne]

lemma afterPhysics_fire_ground (p : Player) (dt : ℚ)
    (hog : p.ent.on_ground = true) (hdrop : p.dropIntent = 0)
    (hsup : p.suppressJump = 0) (hbuf : 0 < p.jumpBuffer) :
    afterPhysics p dt =
      { p with ent := { p.ent with vely := -JUMP_SPEED, on_ground := false }
               coyote := 0
               jumpBuffer := 0 } := by
  simp [afterPhysics, hog, hdrop, hsup, hbuf]

lemma afterPhysics_fire_air (p : Player) (dt : ℚ)
    (hog : p.ent.on_ground = false) (hdrop : p.dropIntent = 0)
    (hsup : p.suppressJump = 0) (hbuf : 0 < p.jumpBuffer)
    (hcoy : 0 < tickOne p.coyote dt) :
    afterPhysics p dt =
      { p with ent := { p.ent with vely := -JUMP_SPEED, on_ground := false }
               coyote := 0
               jumpBuffer := 0 } := by
  have hcoy2 : (0 : ℚ) < if p.coyote > 0 then max 0 (p.coyote - dt) else p.coyote :=
    hcoy
  simp [afterPhysics, hog, hdrop, hsup, hbuf, hcoy2]

lemma afterPhysics_drop (p : Player) (dt : ℚ)
    (hdrop : 0 < p.dropIntent) (hog : p.ent.on_ground = true) :
    afterPhysics p dt =
      { p with ent := { p.ent with
                 ignore_one_way_timer := DROP_THROUGH_TIME
                 vely := if p.ent.vely < 30 then 30 else p.ent.vely }
               coyote := COYOTE_TIME
               suppressJump := max p.suppressJump (DROP_THROUGH_TIME * (1/2))
               dropIntent := 0 } := by
  simp [afterPhysics, hog, hdrop]

lemma afterPhysics_suppressed (p : Player) (dt : ℚ)
    (hnd : ¬(p.dropIntent > 0 ∧ p.ent.on_ground = true))
    (hsup : p.suppressJump > 0) :
    afterPhysics p dt =
      { p with coyote :=
          if p.ent.on_ground = true then COYOTE_TIME
          else if p.coyote > 0 then max 0 (p.coyote - dt) else p.coyote } := by
  simp only [afterPhysics]
  rw [if_neg hnd, if_pos hsup]

lemma airborneRun_cons (p : Player) (f : FrameIn) (fs : List FrameIn) :
    airborneRun p (f :: fs) = true ↔
      (midFrame p f).ent.on_ground = false ∧ airborneRun (frame p f) fs = true := by
  simp [airborneRun]

/-- Invariant of a run of airborne coast frames (no jump or down key, no
pending drop or suppression, and either no buffered jump or no coyote
window): the drop and suppress timers stay zero, the jump-buffer and
coyote timers tick down by accumulated `dt` clamped at zero, and the
previous-jump flag ends false unless the run is empty. -/
lemma coastRun (fs : List FrameIn) :
    ∀ q : Player, q.dropIntent = 0 → q.suppressJump = 0 →
    0 ≤ q.jumpBuffer → 0 ≤ q.coyote →
    (q.jumpBuffer = 0 ∨ q.coyote = 0) →
    (∀ f ∈ fs, f.keys.jump = false ∧ f.keys.down = false ∧ 0 ≤ f.dt) →
    airborneRun q fs = true →
    (runFrames q fs).dropIntent = 0 ∧
    (runFrames q fs).suppressJump = 0 ∧
    (runFrames q fs).jumpBuffer = max 0 (q.jumpBuffer - sumDt fs) ∧
    (runFrames q fs).coyote = max 0 (q.coyote - sumDt fs) ∧
    (runFrames q fs).prevJumpDown = (if fs = [] then q.prevJumpDown else false) := by
  induction fs with
  | nil =>
    intro q h1 h2 h3 h4 _ _ _
    refine ⟨h1, h2, ?_, ?_, ?_⟩
    · simp [runFrames, sumDt, max_eq_right h3]
    · simp [runFrames, sumDt, max_eq_right h4]
    · simp [runFrames]
  | cons f fs ih =>
    intro q h1 h2 h3 h4 h5 hclean hair
    obtain ⟨hj, hd, hdt⟩ := hclean f (by simp)
    have hcl : ∀ g ∈ fs, g.keys.jump = false ∧ g.keys.down = false ∧ 0 ≤ g.dt :=
      fun g hg => hclean g (by simp [hg])
    obtain ⟨hairf, hairrest⟩ := (airborneRun_cons q f fs).1 hair
    obtain ⟨hic, hib, his, hid, hip, -, -, -, -⟩ :=
      handleInput_nojump q f.dt f.keys hj
    -- fields of the mid-frame state
    have hmc : (midFrame q f).coyote = q.coyote := hic
    have hmb : (midFrame q f).jumpBuffer = tickOne q.jumpBuffer f.dt := hib
    have hms : (midFrame q f).suppressJump = tickOne q.suppressJump f.dt := his
    have hmd : (midFrame q f).dropIntent = tickOne q.dropIntent f.dt := hid
    have hmp : (midFrame q f).prevJumpDown = false := hip
    have hms0 : (midFrame q f).suppressJump = 0 := by
      rw [hms, h2, tickOne_zero]
    have hmd0 : (midFrame q f).dropIntent = 0 := by
      rw [hmd, h1, tickOne_zero]
    have hnf : (midFrame q f).jumpBuffer = 0 ∨ (midFrame q f).coyote = 0 := by
      rcases h5 with hb | hc
      · left; rw [hmb, hb, tickOne_zero]
      · right; rw [hmc, hc]
    have hframe : frame q f =
        { midFrame q f with coyote := tickOne (midFrame q f).coyote f.dt } :=
      afterPhysics_nofire (midFrame q f) f.dt hairf hmd0 hms0 hnf
    -- fields of the post-frame state
    have hfc : (frame q f).coyote = max 0 (q.coyote - f.dt) := by
      rw [hframe]; show tickOne (midFrame q f).coyote f.dt = _
      rw [hmc, tickOne_eq_max q.coyote f.dt h4 hdt]
    have hfb : (frame q f).jumpBuffer = max 0 (q.jumpBuffer - f.dt) := by
      rw [hframe]; show (midFrame q f).jumpBuffer = _
      rw [hmb, tickOne_eq_max q.jumpBuffer f.dt h3 hdt]
    have hfs : (frame q f).suppressJump = 0 := by
      rw [hframe]; exact hms0
    have hfd : (frame q f).dropIntent = 0 := by
      rw [hframe]; exact hmd0
    have hfp : (frame q f).prevJumpDown = false := by
      rw [hframe]; exact hmp
    have hnf2 : (frame q f).jumpBuffer = 0 ∨ (frame q f).coyote = 0 := by
      rcases h5 with hb | hc
      · left; rw [hfb, hb, zero_sub, max_eq_left (by linarith)]
      · right; rw [hfc, hc, zero_sub, max_eq_left (by linarith)]
    obtain ⟨i1, i2, i3, i4, i5⟩ := ih (frame q f) hfd hfs
      (by rw [hfb]; exact le_max_left 0 _)
      (by rw [hfc]; exact le_max_left 0 _) hnf2 hcl hairrest
    have hrun : runFrames q (f :: fs) = runFrames (frame q f) fs := rfl
    have hSnn : 0 ≤ sumDt fs :=
      sumDt_nonneg fs (fun g hg => (hcl g hg).2.2)
    refine ⟨by rw [hrun]; exact i1, by rw [hrun]; exact i2, ?_, ?_, ?_⟩
    · rw [hrun, i3, hfb, max_zero_sub_sub _ _ _ hSnn, sumDt_cons]
    · rw [hrun, i4, hfc, max_zero_sub_sub _ _ _ hSnn, sumDt_cons]
    · rw [hrun, i5, hfp]
      rcases fs with - | ⟨g, gs⟩ <;> simp

lemma approach_zero_bounds (v d : ℚ) (hd : 0 ≤ d) :
    |approach v 0 d - v| ≤ d ∧ |approach v 0 d| ≤ |v| := by
  unfold approach
  rcases lt_or_le v 0 with hv | hv
  · rw [if_pos hv]
    have hle1 : min (v + d) 0 ≤ 0 := min_le_right _ _
    have hle2 : min (v + d) 0 ≤ v + d := min_le_left _ _
    have hge : v ≤ min (v + d) 0 := le_min (by linarith) (by linarith)
    constructor
    · rw [abs_le]; constructor <;> linarith
    · rw [abs_of_nonpos hle1, abs_of_neg hv]; linarith
  · rw [if_neg (not_lt.2 hv)]
    have hle1 : (0 : ℚ) ≤ max (v - d) 0 := le_max_right _ _
    have hle2 : v - d ≤ max (v - d) 0 := le_max_left _ _
    have hge : max (v - d) 0 ≤ v := max_le (by linarith) hv
    constructor
    · rw [abs_le]; constructor <;> linarith
    · rw [abs_of_nonneg hle1, abs_of_nonneg hv]; exact hge

lemma abs_clampToMaxSpeed (v : ℚ) : |clampToMaxSpeed v| ≤ MAX_SPEED := by
  unfold clampToMaxSpeed
  split
  · assumption
  · rename_i h
    rcases lt_trichotomy v 0 with hv | hv | hv
    · have hs : psign v = -1 := by
        simp [psign, if_neg (asymm hv), if_pos hv]
      rw [hs]; norm_num [MAX_SPEED]
    · exact absurd (by rw [hv]; norm_num [MAX_SPEED]) h
    · have hs : psign v = 1 := by
        simp [psign, if_pos hv, if_neg (asymm hv)]
      rw [hs]; norm_num [MAX_SPEED]

/-! ## Claim theorems -/

/-- C1, counterexample: the claim quantifies over every `dt ≥ 0` and
every body state, but at `dt = 0` with zero velocity a body that already
overlaps the interior of the single solid obstacle is left exactly where
it is by `move_and_collide` — the resolution passes only push when the
corresponding velocity component is nonzero — so the final rectangle
still overlaps the solid's interior. -/
theorem C1_counterexample :
    interiorOverlap (moveAndCollide bodyInTile 0 [tileO] []).rect tileO := by
  norm_num [moveAndCollide, afterVertical, afterHorizontal, rectAfterSolids,
    velAfterSolids, ogAfterSolids, oneWayHits, prevBottom, colliderect,
    hResolve, vResolve, owResolve, interiorOverlap, FRect.setX, FRect.setY,
    FRect.setRight, FRect.setLeft, FRect.setTop, FRect.setBottom, FRect.left,
    FRect.right, FRect.top, FRect.bottom, GRAVITY, TERMINAL_V, bodyInTile,
    tileO]

/-- C1, amended: for every `dt`, a single solid obstacle, no one-way
obstacles, positive body and obstacle sizes, and a body whose rectangle
does not already meet the solid's interior, after `move_and_collide` the
body's rectangle does not meet the interior of the solid (exact edge
contact allowed). -/
theorem C1_single_solid_no_interior_overlap (e : Entity) (dt : ℚ) (t : FRect)
    (hew : 0 < e.rect.w) (heh : 0 < e.rect.h) (htw : 0 < t.w) (hth : 0 < t.h)
    (h0 : ¬ interiorOverlap e.rect t) :
    ¬ interiorOverlap (moveAndCollide e dt [t] []).rect t := by
  rw [moveAndCollide_rect_noOneWays]
  exact rectAfterSolids_single_no_overlap e dt t hew heh htw hth h0

/-- C1, witness: a falling body above a floor slab lands on it and ends
with no interior overlap. -/
theorem C1_single_solid_witness :
    ¬ interiorOverlap fallingPlayer.ent.rect ⟨0, 60, 96, 32⟩ ∧
    ¬ interiorOverlap
        (moveAndCollide fallingPlayer.ent (1/10) [⟨0, 60, 96, 32⟩] []).rect
        ⟨0, 60, 96, 32⟩ :=
  ⟨by norm_num [interiorOverlap, fallingPlayer],
   C1_single_solid_no_interior_overlap fallingPlayer.ent (1/10) ⟨0, 60, 96, 32⟩
     (by norm_num [fallingPlayer]) (by norm_num [fallingPlayer])
     (by norm_num) (by norm_num)
     (by norm_num [interiorOverlap, fallingPlayer])⟩

/-- C2, counterexample: the claim bounds the no-input grounded slowdown
by `friction_rate * dt` with the ground rate scaled by the current
`FrictionSample`.  On an icy tile with `surface_friction = 1/2`, the
claimed bound is `1000 * (1/2) * 0.1 = 50` px/s, but `handle_input`
(whose `_next_velocity_x` never reads `surface_friction`) moves
`vel.x = 100` all the way to `0`, a change of 100 px/s. -/
theorem C2_counterexample :
    (handleInput icyPlayer (1/10) keysNone).ent.velx = 0 ∧
    icyPlayer.surfaceFriction = 1/2 ∧
    ¬ (|(handleInput icyPlayer (1/10) keysNone).ent.velx - icyPlayer.ent.velx| ≤
        FRICTION_GROUND * icyPlayer.surfaceFriction * (1/10)) := by
  norm_num [handleInput, tickTimers, tickOne, recordJumpIntent,
    recordDropIntent, nextVelocityX, approach, clampToMaxSpeed, psign,
    keysDir, MAX_SPEED, FRICTION_GROUND, FRICTION_AIR, icyPlayer, keysNone]

/-- C2, amended: in the grounded no-input branch, `_next_velocity_x`
moves `vel.x` toward 0 by at most the fixed rate `FRICTION_GROUND * dt`
(never increasing its magnitude); the rate is not scaled by the sampled
`FrictionSample`. -/
theorem C2_friction_constant_rate (vx dt : ℚ) (hdt : 0 ≤ dt) :
    |nextVelocityX vx dt 0 true - vx| ≤ FRICTION_GROUND * dt ∧
    |nextVelocityX vx dt 0 true| ≤ |vx| := by
  have h : nextVelocityX vx dt 0 true = approach vx 0 (dt * FRICTION_GROUND) := by
    simp [nextVelocityX]
  obtain ⟨h1, h2⟩ := approach_zero_bounds vx (dt * FRICTION_GROUND)
    (mul_nonneg hdt (by norm_num [FRICTION_GROUND]))
  rw [h, mul_comm FRICTION_GROUND dt]
  exact ⟨h1, h2⟩

/-- C2, witness: the amended bound at `vel.x = 100`, `dt = 0.1`. -/
theorem C2_friction_witness :
    (0 : ℚ) ≤ 1/10 ∧
    |nextVelocityX 100 (1/10) 0 true - 100| ≤ FRICTION_GROUND * (1/10) ∧
    |nextVelocityX 100 (1/10) 0 true| ≤ |(100 : ℚ)| :=
  ⟨by norm_num,
   (C2_friction_constant_rate 100 (1/10) (by norm_num)).1,
   (C2_friction_constant_rate 100 (1/10) (by norm_num)).2⟩

/-- C8, code bug: `friction_under` clamps the column span against the
width of row 0, so on a ragged grid whose sampled row is shorter the
Python code raises `IndexError` instead of treating the out-of-range
column as "no tile"; in the embedding the access returns `none`.  The
grid `[[0,0,0],[0]]` queried with feet at `y = 40` over column 1 hits
`grid[1][1]`, which does not exist. -/
theorem C8_ragged_grid_raises :
    frictionUnder raggedMap raggedQuery = none := by
  unfold frictionUnder
  rw [if_neg (by simp [raggedMap])]
  norm_num [raggedMap, raggedQuery, pyInt, TileMap.hgt, TileMap.wid,
    FRect.bottom, FRect.left, FRect.right, Int.fdiv, List.range,
    List.range.loop, List.mapM, List.mapM.loop]

/-- C9: after any `handle_input` call the horizontal speed is clamped to
`MAX_SPEED` in magnitude, for any prior state, elapsed time and key
state; and neither `move_and_collide` nor `after_physics` modifies
`vel.x`, so the bound is preserved through the rest of the frame. -/
theorem C9_max_speed_invariant :
    (∀ (p : Player) (dt : ℚ) (k : Keys),
      |(handleInput p dt k).ent.velx| ≤ MAX_SPEED) ∧
    (∀ (e : Entity) (dt : ℚ) (s o : List FRect),
      (moveAndCollide e dt s o).velx = e.velx) ∧
    (∀ (p : Player) (dt : ℚ),
      (afterPhysics p dt).ent.velx = p.ent.velx) := by
  refine ⟨?_, ?_, ?_⟩
  · intro p dt k
    rw [handleInput_velx]
    exact abs_clampToMaxSpeed _
  · intro e dt s o
    exact moveAndCollide_velx e dt s o
  · intro p dt
    simp only [afterPhysics]
    split_ifs <;> rfl

/-- C3: a one-way obstacle never alters horizontal state (`vel.x`,
`rect.x`, `rect.w` match the run with no one-ways), and it blocks only
when, at the one-way resolution step, the post-solids `vel.y` is `≥ 0`,
the recorded `prev_bottom` is at or above the obstacle's top, the rect
overlaps it, and `ignore_one_way_timer` is not positive: if the timer is
positive, or the body is moving upward there, or every one-way fails the
overlap/`prev_bottom` test, the whole call equals the call with no
one-ways (position and velocity unaffected). -/
theorem C3_one_way_semantics :
    (∀ (e : Entity) (dt : ℚ) (s ow : List FRect),
      (moveAndCollide e dt s ow).velx = e.velx ∧
      (moveAndCollide e dt s ow).rect.x = (moveAndCollide e dt s []).rect.x ∧
      (moveAndCollide e dt s ow).rect.w = (moveAndCollide e dt s []).rect.w) ∧
    (∀ (e : Entity) (dt : ℚ) (s ow : List FRect),
      (0 < e.ignore_one_way_timer ∨ velAfterSolids e dt s < 0 ∨
        ∀ t ∈ ow, ¬ (colliderect (rectAfterSolids e dt s) t = true ∧
                     prevBottom e dt s ≤ t.top)) →
      moveAndCollide e dt s ow = moveAndCollide e dt s []) := by
  constructor
  · intro e dt s ow
    refine ⟨moveAndCollide_velx e dt s ow, ?_, ?_⟩
    · rw [(moveAndCollide_rect_x e dt s ow).1, (moveAndCollide_rect_x e dt s []).1]
    · rw [(moveAndCollide_rect_x e dt s ow).2, (moveAndCollide_rect_x e dt s []).2]
  · intro e dt s ow h
    by_cases hig : e.ignore_one_way_timer > 0
    · simp [moveAndCollide, hig]
    · rcases h with h | h | h
      · exact absurd h hig
      · simp [moveAndCollide, hig, not_le.2 h]
      · have hempty : oneWayHits e dt s ow = [] := by
          rw [oneWayHits, List.filter_eq_nil_iff]
          intro t ht hcontra
          simp only [Bool.and_eq_true, decide_eq_true_eq] at hcontra
          exact h t ht hcontra
        have hnil : oneWayHits e dt s [] = [] := rfl
        by_cases hvy : 0 ≤ velAfterSolids e dt s
        · simp [moveAndCollide, hig, hvy, hempty, hnil]
        · simp [moveAndCollide, hig, hvy]

/-- C3, witness: a body rising through a thin one-way platform is
entirely unaffected by it. -/
theorem C3_one_way_witness :
    velAfterSolids risingBody (1/100) [] < 0 ∧
    moveAndCollide risingBody (1/100) [] [thinOneWay] =
      moveAndCollide risingBody (1/100) [] [] :=
  ⟨by norm_num [velAfterSolids, afterVertical, afterHorizontal, min_def,
      FRect.setX, FRect.setY, GRAVITY, TERMINAL_V, risingBody],
   C3_one_way_semantics.2 risingBody (1/100) [] [thinOneWay]
     (Or.inr (Or.inl (by norm_num [velAfterSolids, afterVertical,
       afterHorizontal, min_def, FRect.setX, FRect.setY, GRAVITY, TERMINAL_V,
       risingBody])))⟩

/-- C6: a jump-press edge with down held records drop intent —
`_record_drop_intent` sets `drop_intent_timer = DROP_THROUGH_TIME`,
raises `suppress_jump_timer` to at least `DROP_THROUGH_TIME/2`, and
clears `jump_buffer_timer` and `coyote_timer`; after the whole
`handle_input` call those fields additionally show the same-frame timer
tick.  When grounded with pending drop intent, `after_physics` sets the
body's `ignore_one_way_timer = DROP_THROUGH_TIME`, keeps the suppress
window at least `DROP_THROUGH_TIME/2`, clears the drop intent, raises
`vel.y` to at least 30, and fires no jump (the jump buffer is left
as-is).  And while `suppress_jump_timer > 0` no buffered or coyote jump
fires in `after_physics` (buffer and grounded flag unchanged, `vel.y`
never set to a jump). -/
theorem C6_drop_through :
    (∀ p : Player,
      (recordDropIntent p).dropIntent = DROP_THROUGH_TIME ∧
      DROP_THROUGH_TIME * (1/2) ≤ (recordDropIntent p).suppressJump ∧
      (recordDropIntent p).jumpBuffer = 0 ∧
      (recordDropIntent p).coyote = 0) ∧
    (∀ (p : Player) (dt : ℚ) (k : Keys),
      k.jump = true → k.down = true → p.prevJumpDown = false →
      (handleInput p dt k).dropIntent = tickOne DROP_THROUGH_TIME dt ∧
      (handleInput p dt k).jumpBuffer = 0 ∧
      (handleInput p dt k).coyote = 0 ∧
      (handleInput p dt k).suppressJump =
        tickOne (max p.suppressJump (DROP_THROUGH_TIME * (1/2))) dt) ∧
    (∀ (p : Player) (dt : ℚ),
      0 < p.dropIntent → p.ent.on_ground = true →
      (afterPhysics p dt).ent.ignore_one_way_timer = DROP_THROUGH_TIME ∧
      DROP_THROUGH_TIME * (1/2) ≤ (afterPhysics p dt).suppressJump ∧
      (afterPhysics p dt).dropIntent = 0 ∧
      30 ≤ (afterPhysics p dt).ent.vely ∧
      (afterPhysics p dt).jumpBuffer = p.jumpBuffer) ∧
    (∀ (p : Player) (dt : ℚ),
      0 < p.suppressJump →
      (afterPhysics p dt).jumpBuffer = p.jumpBuffer ∧
      (afterPhysics p dt).ent.on_ground = p.ent.on_ground ∧
      p.ent.vely ≤ (afterPhysics p dt).ent.vely) := by
  refine ⟨?_, ?_, ?_, ?_⟩
  · intro p
    exact ⟨rfl, le_max_right _ _, rfl, rfl⟩
  · intro p dt k hj hd hp
    obtain ⟨h1, h2, h3, h4, -⟩ := handleInput_dropPress p dt k hj hd hp
    exact ⟨h4, h2, h1, h3⟩
  · intro p dt hdrop hog
    rw [afterPhysics_drop p dt hdrop hog]
    refine ⟨rfl, le_max_right _ _, rfl, ?_, rfl⟩
    show (30 : ℚ) ≤ if p.ent.vely < 30 then 30 else p.ent.vely
    split_ifs with h
    · exact le_rfl
    · exact not_lt.1 h
  · intro p dt hsup
    by_cases hd : p.dropIntent > 0 ∧ p.ent.on_ground = true
    · rw [afterPhysics_drop p dt hd.1 hd.2]
      refine ⟨rfl, rfl, ?_⟩
      show p.ent.vely ≤ if p.ent.vely < 30 then 30 else p.ent.vely
      split_ifs with h
      · linarith
      · exact le_rfl
    · rw [afterPhysics_suppressed p dt hd hsup]
      exact ⟨rfl, rfl, le_rfl⟩

/-- C6, witness: the drop branch of `after_physics` on a grounded player
with pending drop intent, and the suppression of its buffered jump. -/
theorem C6_drop_through_witness :
    (0 < dropPlayer.dropIntent ∧ dropPlayer.ent.on_ground = true ∧
      0 < dropPlayer.suppressJump) ∧
    ((afterPhysics dropPlayer (1/60)).ent.ignore_one_way_timer = DROP_THROUGH_TIME ∧
     (afterPhysics dropPlayer (1/60)).dropIntent = 0 ∧
     30 ≤ (afterPhysics dropPlayer (1/60)).ent.vely ∧
     (afterPhysics dropPlayer (1/60)).jumpBuffer = dropPlayer.jumpBuffer) ∧
    (recordDropIntent dropPlayer).dropIntent = DROP_THROUGH_TIME :=
  ⟨⟨by norm_num [dropPlayer, DROP_THROUGH_TIME], rfl,
     by norm_num [dropPlayer, DROP_THROUGH_TIME]⟩,
   ⟨((C6_drop_through.2.2.1 dropPlayer (1/60)
       (by norm_num [dropPlayer, DROP_THROUGH_TIME]) rfl)).1,
    ((C6_drop_through.2.2.1 dropPlayer (1/60)
       (by norm_num [dropPlayer, DROP_THROUGH_TIME]) rfl)).2.2.1,
    ((C6_drop_through.2.2.1 dropPlayer (1/60)
       (by norm_num [dropPlayer, DROP_THROUGH_TIME]) rfl)).2.2.2.1,
    ((C6_drop_through.2.2.1 dropPlayer (1/60)
       (by norm_num [dropPlayer, DROP_THROUGH_TIME]) rfl)).2.2.2.2⟩,
   (C6_drop_through.1 dropPlayer).1⟩

/-- C7, counterexample: a bare `handle_input` call with no keys pressed
and `dt = 0.1` ticks the jump-buffer, suppress and drop-intent timers
down by `dt`, contradicting the claim that a pre-physics call not
followed by the rest of the frame leaves all four timers unchanged. -/
theorem C7_counterexample :
    ¬ ((handleInput timerPlayer (1/10) keysNone).jumpBuffer = timerPlayer.jumpBuffer ∧
       (handleInput timerPlayer (1/10) keysNone).suppressJump = timerPlayer.suppressJump ∧
       (handleInput timerPlayer (1/10) keysNone).dropIntent = timerPlayer.dropIntent) := by
  norm_num [handleInput, tickTimers, tickOne, keysDir, nextVelocityX,
    approach, clampToMaxSpeed, psign, MAX_SPEED, FRICTION_GROUND,
    FRICTION_AIR, max_def, timerPlayer, keysNone]

/-- C7, amended: a `handle_input` call with no jump press leaves
`coyote_timer` unchanged (only `after_physics` touches it) but always
ticks `jump_buffer_timer`, `suppress_jump_timer` and `drop_intent_timer`
down by `dt`, clamped at zero — ticking is not coupled to the rest of
the frame. -/
theorem C7_pre_physics_ticks (p : Player) (dt : ℚ) (k : Keys)
    (hj : k.jump = false) :
    (handleInput p dt k).coyote = p.coyote ∧
    (handleInput p dt k).jumpBuffer = tickOne p.jumpBuffer dt ∧
    (handleInput p dt k).suppressJump = tickOne p.suppressJump dt ∧
    (handleInput p dt k).dropIntent = tickOne p.dropIntent dt := by
  obtain ⟨h1, h2, h3, h4, -, -, -, -, -⟩ := handleInput_nojump p dt k hj
  exact ⟨h1, h2, h3, h4⟩

/-- C7, witness: the amended tick behaviour at a concrete player. -/
theorem C7_pre_physics_witness :
    keysNone.jump = false ∧
    ((handleInput timerPlayer (1/10) keysNone).coyote = timerPlayer.coyote ∧
     (handleInput timerPlayer (1/10) keysNone).jumpBuffer =
       tickOne timerPlayer.jumpBuffer (1/10) ∧
     (handleInput timerPlayer (1/10) keysNone).suppressJump =
       tickOne timerPlayer.suppressJump (1/10) ∧
     (handleInput timerPlayer (1/10) keysNone).dropIntent =
       tickOne timerPlayer.dropIntent (1/10)) :=
  ⟨rfl, C7_pre_physics_ticks timerPlayer (1/10) keysNone rfl⟩

/-- C10: with `dt = 0` and zero velocity, `move_and_collide` leaves
position and velocity unchanged and resets `on_ground` to `false`, even
for a body whose bottom edge exactly touches the top of a platform in
the solid list (edge contact is not an overlap), and even if the body
overlaps solids (the vertical pass does nothing when `vel.y = 0`). -/
theorem C10_rest_dt_zero (e : Entity) (solids oneWays : List FRect) (t : FRect)
    (hvx : e.velx = 0) (hvy : e.vely = 0)
    (ht : t ∈ solids) (hbot : e.rect.y + e.rect.h = t.y)
    (heh : 0 ≤ e.rect.h) (how : ∀ u ∈ oneWays, 0 ≤ u.h) :
    (moveAndCollide e 0 solids oneWays).rect = e.rect ∧
    (moveAndCollide e 0 solids oneWays).velx = 0 ∧
    (moveAndCollide e 0 solids oneWays).vely = 0 ∧
    (moveAndCollide e 0 solids oneWays).on_ground = false := by
  have hsetx : e.rect.setX e.rect.x = e.rect := rfl
  have hH : afterHorizontal e 0 solids = e.rect := by
    unfold afterHorizontal
    rw [hvx, zero_mul, add_zero, hsetx, foldl_hResolve_zero]
  have hvy1 : min (e.vely + GRAVITY * 0) TERMINAL_V = 0 := by
    rw [hvy, mul_zero, add_zero,
        min_eq_left (by norm_num [TERMINAL_V] : (0:ℚ) ≤ TERMINAL_V)]
  have hsety : e.rect.setY e.rect.y = e.rect := rfl
  have hV : afterVertical e 0 solids = (e.rect, 0, false) := by
    simp only [afterVertical]
    rw [hH, hvy1, zero_mul, add_zero, hsety, foldl_vResolve_zero]
  have hRA : rectAfterSolids e 0 solids = e.rect := by rw [rectAfterSolids, hV]
  have hVA : velAfterSolids e 0 solids = 0 := by rw [velAfterSolids, hV]
  have hOG : ogAfterSolids e 0 solids = false := by rw [ogAfterSolids, hV]
  have hPB : prevBottom e 0 solids = e.rect.y + e.rect.h := by
    rw [prevBottom, hH, FRect.bottom]
  have hHits : oneWayHits e 0 solids oneWays = [] := by
    rw [oneWayHits, List.filter_eq_nil_iff]
    intro u hu hcontra
    simp only [Bool.and_eq_true, decide_eq_true_eq] at hcontra
    obtain ⟨h1, h2a⟩ := hcontra
    rw [hRA] at h1
    rw [hPB] at h2a
    unfold colliderect at h1
    simp only [Bool.and_eq_true, decide_eq_true_eq] at h1
    obtain ⟨⟨⟨⟨⟨⟨⟨-, -⟩, -⟩, -⟩, -⟩, -⟩, -⟩, h8⟩ := h1
    have hmin : min u.y (u.y + u.h) = u.y :=
      min_eq_left (by linarith [how u hu])
    have hmax : max e.rect.y (e.rect.y + e.rect.h) = e.rect.y + e.rect.h :=
      max_eq_right (by linarith)
    rw [hmin, hmax] at h8
    unfold FRect.top at h2a
    linarith
  have hvge : (0 : ℚ) ≤ velAfterSolids e 0 solids := by
    rw [hVA]
  unfold moveAndCollide
  by_cases hig : e.ignore_one_way_timer > 0
  · rw [if_pos hig]
    exact ⟨hRA, hvx, hVA, hOG⟩
  · rw [if_neg hig, if_pos hvge, hHits, List.foldl_nil, hV]
    exact ⟨rfl, hvx, rfl, rfl⟩

/-- C10, witness: a body at rest with its feet exactly on the platform's
top edge, stepped with `dt = 0`. -/
theorem C10_rest_witness :
    restingBody.velx = 0 ∧ restingBody.vely = 0 ∧
    restingBody.rect.y + restingBody.rect.h = restTile.y ∧
    (moveAndCollide restingBody 0 [restTile] []).rect = restingBody.rect ∧
    (moveAndCollide restingBody 0 [restTile] []).on_ground = false :=
  have h := C10_rest_dt_zero restingBody [restTile] [] restTile rfl rfl
    (by simp) (by norm_num [restingBody, restTile])
    (by norm_num [restingBody]) (by simp)
  ⟨rfl, rfl, by norm_num [restingBody, restTile], h.1, h.2.2.2⟩

set_option maxHeartbeats 2000000 in
/-- C4, counterexample: the claim promises the landing-frame jump for
any sequence with a press while airborne, no drop intent and no
suppression — but it forgets the coyote window.  In a low tunnel, a
press while the coyote window is still open fires immediately; the body
then bonks the ceiling (zeroing `vel.y`), falls, and lands 0.18 s
(< `JUMP_BUFFER_TIME` = 0.24 s) after the press with the buffer already
consumed: the landing frame's post-physics step fires nothing
(`vel.y = 0`, not `-JUMP_SPEED`, and `on_ground` stays `true`). -/
theorem C4_counterexample :
    (tunnelPlayer.ent.on_ground = false ∧ tunnelPlayer.dropIntent = 0 ∧
     tunnelPlayer.suppressJump = 0 ∧ tunnelPlayer.prevJumpDown = false ∧
     tunnelF0.keys.jump = true ∧ tunnelF0.keys.down = false) ∧
    airborneRun tunnelPlayer [tunnelF0, tunnelF1] = true ∧
    (midFrame (runFrames tunnelPlayer [tunnelF0, tunnelF1]) tunnelF2).ent.on_ground
      = true ∧
    sumDt [tunnelF0, tunnelF1] + tunnelF2.dt < JUMP_BUFFER_TIME ∧
    ¬ ((frame (runFrames tunnelPlayer [tunnelF0, tunnelF1]) tunnelF2).ent.vely
        = -JUMP_SPEED) ∧
    (frame (runFrames tunnelPlayer [tunnelF0, tunnelF1]) tunnelF2).ent.on_ground
      = true := by
  refine ⟨⟨rfl, rfl, rfl, rfl, rfl, rfl⟩, ?_, ?_, ?_, ?_, ?_⟩ <;>
    norm_num [frame, midFrame, runFrames, physStep, handleInput, afterPhysics,
      moveAndCollide, afterVertical, afterHorizontal, rectAfterSolids,
      velAfterSolids, ogAfterSolids, oneWayHits, prevBottom, colliderect,
      hResolve, vResolve, owResolve, tickTimers, tickOne, recordJumpIntent,
      recordDropIntent, nextVelocityX, approach, clampToMaxSpeed, psign,
      keysDir, sumDt, airborneRun, FRect.setX, FRect.setY, FRect.setRight,
      FRect.setLeft, FRect.setTop, FRect.setBottom, FRect.left, FRect.right,
      FRect.top, FRect.bottom, min_def, max_def, GRAVITY, TERMINAL_V,
      MAX_SPEED, ACCEL_GROUND, DECEL_GROUND, ACCEL_AIR, DECEL_AIR,
      FRICTION_GROUND, FRICTION_AIR, JUMP_SPEED, COYOTE_TIME,
      JUMP_BUFFER_TIME, DROP_THROUGH_TIME, tunnelPlayer, tunnelSolids,
      tunnelF0, tunnelF1, tunnelF2, keysNone, keysJump]

/-- C4, amended: jump buffering as claimed, additionally assuming the
coyote window has expired at the press (`coyote_timer = 0`) and that
jump and down are not pressed again before landing.  A jump-press edge
while airborne, followed by airborne frames and a landing frame whose
collision step sets `on_ground`, with total accumulated `dt` under
`JUMP_BUFFER_TIME`, no drop intent, and no suppression, makes the
landing frame's post-physics step fire the jump: `vel.y = -JUMP_SPEED`,
`on_ground = false`, and both timers cleared. -/
theorem C4_buffered_jump_fires_on_landing
    (p0 : Player) (f0 : FrameIn) (fs : List FrameIn) (fl : FrameIn)
    (hog0 : p0.ent.on_ground = false) (hcoy0 : p0.coyote = 0)
    (hdrop0 : p0.dropIntent = 0) (hsup0 : p0.suppressJump = 0)
    (hprev0 : p0.prevJumpDown = false)
    (hj0 : f0.keys.jump = true) (hd0 : f0.keys.down = false) (hdt0 : 0 ≤ f0.dt)
    (hclean : ∀ f ∈ fs, f.keys.jump = false ∧ f.keys.down = false ∧ 0 ≤ f.dt)
    (hjl : fl.keys.jump = false) (hdtl : 0 ≤ fl.dt)
    (htot : f0.dt + sumDt fs + fl.dt < JUMP_BUFFER_TIME)
    (hair : airborneRun p0 (f0 :: fs) = true)
    (hland : (midFrame (runFrames p0 (f0 :: fs)) fl).ent.on_ground = true) :
    (frame (runFrames p0 (f0 :: fs)) fl).ent.vely = -JUMP_SPEED ∧
    (frame (runFrames p0 (f0 :: fs)) fl).ent.on_ground = false ∧
    (frame (runFrames p0 (f0 :: fs)) fl).coyote = 0 ∧
    (frame (runFrames p0 (f0 :: fs)) fl).jumpBuffer = 0 := by
  obtain ⟨hairf, hairrest⟩ := (airborneRun_cons p0 f0 fs).1 hair
  have hS : 0 ≤ sumDt fs := sumDt_nonneg fs (fun g hg => (hclean g hg).2.2)
  obtain ⟨pic, pib, pis, pid, -, -, -, -, -⟩ :=
    handleInput_press p0 f0.dt f0.keys hj0 hd0 hprev0
  have hm0c : (midFrame p0 f0).coyote = 0 := pic.trans hcoy0
  have hm0b : (midFrame p0 f0).jumpBuffer = tickOne JUMP_BUFFER_TIME f0.dt := pib
  have hm0s : (midFrame p0 f0).suppressJump = 0 := by
    have h : (midFrame p0 f0).suppressJump = tickOne p0.suppressJump f0.dt := pis
    rw [hsup0, tickOne_zero] at h; exact h
  have hm0d : (midFrame p0 f0).dropIntent = 0 := by
    have h : (midFrame p0 f0).dropIntent = tickOne p0.dropIntent f0.dt := pid
    rw [hdrop0, tickOne_zero] at h; exact h
  have hframe0 : frame p0 f0 =
      { midFrame p0 f0 with coyote := tickOne (midFrame p0 f0).coyote f0.dt } :=
    afterPhysics_nofire (midFrame p0 f0) f0.dt hairf hm0d hm0s (Or.inr hm0c)
  have hq1c : (frame p0 f0).coyote = 0 := by
    rw [hframe0]
    show tickOne (midFrame p0 f0).coyote f0.dt = 0
    rw [hm0c, tickOne_zero]
  have hq1b : (frame p0 f0).jumpBuffer = max 0 (JUMP_BUFFER_TIME - f0.dt) := by
    rw [hframe0]
    show (midFrame p0 f0).jumpBuffer = _
    rw [hm0b, tickOne_eq_max _ _ (by norm_num [JUMP_BUFFER_TIME]) hdt0]
  have hq1s : (frame p0 f0).suppressJump = 0 := by rw [hframe0]; exact hm0s
  have hq1d : (frame p0 f0).dropIntent = 0 := by rw [hframe0]; exact hm0d
  obtain ⟨i1, i2, i3, i4, -⟩ := coastRun fs (frame p0 f0) hq1d hq1s
    (by rw [hq1b]; exact le_max_left 0 _)
    (le_of_eq hq1c.symm)
    (Or.inr hq1c) hclean hairrest
  have hrun : runFrames p0 (f0 :: fs) = runFrames (frame p0 f0) fs := rfl
  obtain ⟨lic, lib, lis, lid, -, -, -, -, -⟩ :=
    handleInput_nojump (runFrames (frame p0 f0) fs) fl.dt fl.keys hjl
  have hrb : (runFrames (frame p0 f0) fs).jumpBuffer =
      max 0 (JUMP_BUFFER_TIME - (f0.dt + sumDt fs)) := by
    rw [i3, hq1b, max_zero_sub_sub _ _ _ hS]
  have hmlb : (midFrame (runFrames (frame p0 f0) fs) fl).jumpBuffer =
      max 0 (JUMP_BUFFER_TIME - (f0.dt + sumDt fs + fl.dt)) := by
    have h : (midFrame (runFrames (frame p0 f0) fs) fl).jumpBuffer =
        tickOne (runFrames (frame p0 f0) fs).jumpBuffer fl.dt := lib
    rw [hrb, tickOne_eq_max _ _ (le_max_left 0 _) hdtl,
        max_zero_sub_sub _ _ _ hdtl] at h
    exact h
  have hmlbpos : 0 < (midFrame (runFrames (frame p0 f0) fs) fl).jumpBuffer := by
    rw [hmlb]
    have h : 0 < JUMP_BUFFER_TIME - (f0.dt + sumDt fs + fl.dt) := by linarith
    exact lt_max_of_lt_right h
  have hmls : (midFrame (runFrames (frame p0 f0) fs) fl).suppressJump = 0 := by
    have h : (midFrame (runFrames (frame p0 f0) fs) fl).suppressJump =
        tickOne (runFrames (frame p0 f0) fs).suppressJump fl.dt := lis
    rw [i2, tickOne_zero] at h; exact h
  have hmld : (midFrame (runFrames (frame p0 f0) fs) fl).dropIntent = 0 := by
    have h : (midFrame (runFrames (frame p0 f0) fs) fl).dropIntent =
        tickOne (runFrames (frame p0 f0) fs).dropIntent fl.dt := lid
    rw [i1, tickOne_zero] at h; exact h
  rw [hrun] at hland ⊢
  have hfire := afterPhysics_fire_ground (midFrame (runFrames (frame p0 f0) fs) fl)
    fl.dt hland hmld hmls hmlbpos
  have hfr : frame (runFrames (frame p0 f0) fs) fl =
      afterPhysics (midFrame (runFrames (frame p0 f0) fs) fl) fl.dt := rfl
  rw [hfr, hfire]
  exact ⟨rfl, rfl, rfl, rfl⟩

/-- C4, witness: press 0.1 s before landing on a floor slab; the jump
fires on the landing frame. -/
theorem C4_buffered_jump_witness :
    airborneRun fallingPlayer [fallF0] = true ∧
    (midFrame (runFrames fallingPlayer [fallF0]) fallF1).ent.on_ground = true ∧
    fallF0.dt + sumDt [] + fallF1.dt < JUMP_BUFFER_TIME ∧
    ((frame (runFrames fallingPlayer [fallF0]) fallF1).ent.vely = -JUMP_SPEED ∧
     (frame (runFrames fallingPlayer [fallF0]) fallF1).ent.on_ground = false ∧
     (frame (runFrames fallingPlayer [fallF0]) fallF1).coyote = 0 ∧
     (frame (runFrames fallingPlayer [fallF0]) fallF1).jumpBuffer = 0) :=
  ⟨by norm_num [frame, midFrame, runFrames, physStep, handleInput, afterPhysics,
      moveAndCollide, afterVertical, afterHorizontal, rectAfterSolids,
      velAfterSolids, ogAfterSolids, oneWayHits, prevBottom, colliderect,
      hResolve, vResolve, owResolve, tickTimers, tickOne, recordJumpIntent,
      recordDropIntent, nextVelocityX, approach, clampToMaxSpeed, psign,
      keysDir, airborneRun, FRect.setX, FRect.setY, FRect.setRight,
      FRect.setLeft, FRect.setTop, FRect.setBottom, FRect.left, FRect.right,
      FRect.top, FRect.bottom, min_def, max_def, GRAVITY, TERMINAL_V,
      MAX_SPEED, ACCEL_GROUND, DECEL_GROUND, ACCEL_AIR, DECEL_AIR,
      FRICTION_GROUND, FRICTION_AIR, JUMP_SPEED, COYOTE_TIME,
      JUMP_BUFFER_TIME, DROP_THROUGH_TIME, fallingPlayer, floorSolids,
      fallF0, fallF1, keysNone, keysJump],
   by norm_num [frame, midFrame, runFrames, physStep, handleInput, afterPhysics,
      moveAndCollide, afterVertical, afterHorizontal, rectAfterSolids,
      velAfterSolids, ogAfterSolids, oneWayHits, prevBottom, colliderect,
      hResolve, vResolve, owResolve, tickTimers, tickOne, recordJumpIntent,
      recordDropIntent, nextVelocityX, approach, clampToMaxSpeed, psign,
      keysDir, airborneRun, FRect.setX, FRect.setY, FRect.setRight,
      FRect.setLeft, FRect.setTop, FRect.setBottom, FRect.left, FRect.right,
      FRect.top, FRect.bottom, min_def, max_def, GRAVITY, TERMINAL_V,
      MAX_SPEED, ACCEL_GROUND, DECEL_GROUND, ACCEL_AIR, DECEL_AIR,
      FRICTION_GROUND, FRICTION_AIR, JUMP_SPEED, COYOTE_TIME,
      JUMP_BUFFER_TIME, DROP_THROUGH_TIME, fallingPlayer, floorSolids,
      fallF0, fallF1, keysNone, keysJump],
   by norm_num [sumDt, fallF0, fallF1, JUMP_BUFFER_TIME],
   C4_buffered_jump_fires_on_landing fallingPlayer fallF0 [] fallF1
     rfl rfl rfl rfl rfl rfl rfl (by norm_num [fallF0]) (by simp) rfl
     (by norm_num [fallF1])
     (by norm_num [sumDt, fallF0, fallF1, JUMP_BUFFER_TIME])
     (by norm_num [frame, midFrame, runFrames, physStep, handleInput,
        afterPhysics, moveAndCollide, afterVertical, afterHorizontal,
        rectAfterSolids, velAfterSolids, ogAfterSolids, oneWayHits, prevBottom,
        colliderect, hResolve, vResolve, owResolve, tickTimers, tickOne,
        recordJumpIntent, recordDropIntent, nextVelocityX, approach,
        clampToMaxSpeed, psign, keysDir, airborneRun, FRect.setX, FRect.setY,
        FRect.setRight, FRect.setLeft, FRect.setTop, FRect.setBottom,
        FRect.left, FRect.right, FRect.top, FRect.bottom, min_def, max_def,
        GRAVITY, TERMINAL_V, MAX_SPEED, ACCEL_GROUND, DECEL_GROUND, ACCEL_AIR,
        DECEL_AIR, FRICTION_GROUND, FRICTION_AIR, JUMP_SPEED, COYOTE_TIME,
        JUMP_BUFFER_TIME, DROP_THROUGH_TIME, fallingPlayer, floorSolids,
        fallF0, fallF1, keysNone, keysJump])
     (by norm_num [frame, midFrame, runFrames, physStep, handleInput,
        afterPhysics, moveAndCollide, afterVertical, afterHorizontal,
        rectAfterSolids, velAfterSolids, ogAfterSolids, oneWayHits, prevBottom,
        colliderect, hResolve, vResolve, owResolve, tickTimers, tickOne,
        recordJumpIntent, recordDropIntent, nextVelocityX, approach,
        clampToMaxSpeed, psign, keysDir, airborneRun, FRect.setX, FRect.setY,
        FRect.setRight, FRect.setLeft, FRect.setTop, FRect.setBottom,
        FRect.left, FRect.right, FRect.top, FRect.bottom, min_def, max_def,
        GRAVITY, TERMINAL_V, MAX_SPEED, ACCEL_GROUND, DECEL_GROUND, ACCEL_AIR,
        DECEL_AIR, FRICTION_GROUND, FRICTION_AIR, JUMP_SPEED, COYOTE_TIME,
        JUMP_BUFFER_TIME, DROP_THROUGH_TIME, fallingPlayer, floorSolids,
        fallF0, fallF1, keysNone, keysJump])⟩

/-- C5: coyote time.  Starting grounded with a full coyote window and no
pending intents, after leaving the ground and coasting airborne: (a) a
jump-press edge whose frame ends with accumulated `dt` still under
`COYOTE_TIME` fires the jump in that frame's post-physics step
(`vel.y = -JUMP_SPEED`, `on_ground = false`, timers cleared); (b) a
jump-press edge arriving after `COYOTE_TIME` or more of accumulated `dt`
fires no jump in that frame: `vel.y` and the jump buffer are left as the
collision step produced them and the body stays airborne.  (The press
frame's own `dt` is ticked off the coyote timer before the jump check,
exactly as `after_physics` does.) -/
theorem C5_coyote_time :
    (∀ (p0 : Player) (fs : List FrameIn) (fp : FrameIn),
      p0.ent.on_ground = true → p0.coyote = COYOTE_TIME →
      p0.jumpBuffer = 0 → p0.dropIntent = 0 → p0.suppressJump = 0 →
      p0.prevJumpDown = false →
      (∀ f ∈ fs, f.keys.jump = false ∧ f.keys.down = false ∧ 0 ≤ f.dt) →
      fp.keys.jump = true → fp.keys.down = false → 0 ≤ fp.dt →
      airborneRun p0 fs = true →
      (midFrame (runFrames p0 fs) fp).ent.on_ground = false →
      sumDt fs + fp.dt < COYOTE_TIME →
      (frame (runFrames p0 fs) fp).ent.vely = -JUMP_SPEED ∧
      (frame (runFrames p0 fs) fp).ent.on_ground = false ∧
      (frame (runFrames p0 fs) fp).coyote = 0 ∧
      (frame (runFrames p0 fs) fp).jumpBuffer = 0) ∧
    (∀ (p0 : Player) (fs : List FrameIn) (fp : FrameIn),
      p0.ent.on_ground = true → p0.coyote = COYOTE_TIME →
      p0.jumpBuffer = 0 → p0.dropIntent = 0 → p0.suppressJump = 0 →
      p0.prevJumpDown = false →
      (∀ f ∈ fs, f.keys.jump = false ∧ f.keys.down = false ∧ 0 ≤ f.dt) →
      fp.keys.jump = true → fp.keys.down = false → 0 ≤ fp.dt →
      airborneRun p0 fs = true →
      (midFrame (runFrames p0 fs) fp).ent.on_ground = false →
      COYOTE_TIME ≤ sumDt fs →
      (frame (runFrames p0 fs) fp).ent.vely =
        (midFrame (runFrames p0 fs) fp).ent.vely ∧
      (frame (runFrames p0 fs) fp).ent.on_ground = false ∧
      (frame (runFrames p0 fs) fp).jumpBuffer =
        (midFrame (runFrames p0 fs) fp).jumpBuffer) := by
  constructor
  · intro p0 fs fp hog0 hcoy0 hbuf0 hdrop0 hsup0 hprev0 hclean hjp hdp hdtp
      hairrun hmidair hwin
    have hS : 0 ≤ sumDt fs := sumDt_nonneg fs (fun g hg => (hclean g hg).2.2)
    obtain ⟨i1, i2, i3, i4, i5⟩ := coastRun fs p0 hdrop0 hsup0
      (le_of_eq hbuf0.symm)
      (by rw [hcoy0]; norm_num [COYOTE_TIME])
      (Or.inl hbuf0) hclean hairrun
    have hrb : (runFrames p0 fs).jumpBuffer = 0 := by
      rw [i3, hbuf0, zero_sub, max_eq_left (by linarith)]
    have hrc : (runFrames p0 fs).coyote = COYOTE_TIME - sumDt fs := by
      rw [i4, hcoy0, max_eq_right (by linarith)]
    have hrp : (runFrames p0 fs).prevJumpDown = false := by
      rw [i5, hprev0, ite_self]
    obtain ⟨lic, lib, lis, lid, -, -, -, -, -⟩ :=
      handleInput_press (runFrames p0 fs) fp.dt fp.keys hjp hdp hrp
    have hmb : 0 < (midFrame (runFrames p0 fs) fp).jumpBuffer := by
      have h : (midFrame (runFrames p0 fs) fp).jumpBuffer =
          tickOne JUMP_BUFFER_TIME fp.dt := lib
      rw [tickOne_eq_max _ _ (by norm_num [JUMP_BUFFER_TIME]) hdtp] at h
      rw [h]
      have hlt : 0 < JUMP_BUFFER_TIME - fp.dt := by
        have : fp.dt < COYOTE_TIME := by linarith
        norm_num [JUMP_BUFFER_TIME]
        norm_num [COYOTE_TIME] at this
        linarith
      exact lt_max_of_lt_right hlt
    have hmc : (midFrame (runFrames p0 fs) fp).coyote =
        COYOTE_TIME - sumDt fs := lic.trans hrc
    have hmcpos : 0 < tickOne (midFrame (runFrames p0 fs) fp).coyote fp.dt := by
      rw [hmc, tickOne_eq_max _ _ (by linarith) hdtp]
      exact lt_max_of_lt_right (by linarith)
    have hms : (midFrame (runFrames p0 fs) fp).suppressJump = 0 := by
      have h : (midFrame (runFrames p0 fs) fp).suppressJump =
          tickOne (runFrames p0 fs).suppressJump fp.dt := lis
      rw [i2, tickOne_zero] at h; exact h
    have hmd : (midFrame (runFrames p0 fs) fp).dropIntent = 0 := by
      have h : (midFrame (runFrames p0 fs) fp).dropIntent =
          tickOne (runFrames p0 fs).dropIntent fp.dt := lid
      rw [i1, tickOne_zero] at h; exact h
    have hfire := afterPhysics_fire_air (midFrame (runFrames p0 fs) fp) fp.dt
      hmidair hmd hms hmb hmcpos
    have hfr : frame (runFrames p0 fs) fp =
        afterPhysics (midFrame (runFrames p0 fs) fp) fp.dt := rfl
    rw [hfr, hfire]
    exact ⟨rfl, rfl, rfl, rfl⟩
  · intro p0 fs fp hog0 hcoy0 hbuf0 hdrop0 hsup0 hprev0 hclean hjp hdp hdtp
      hairrun hmidair hlate
    have hS : 0 ≤ sumDt fs := sumDt_nonneg fs (fun g hg => (hclean g hg).2.2)
    obtain ⟨i1, i2, i3, i4, i5⟩ := coastRun fs p0 hdrop0 hsup0
      (le_of_eq hbuf0.symm)
      (by rw [hcoy0]; norm_num [COYOTE_TIME])
      (Or.inl hbuf0) hclean hairrun
    have hrc : (runFrames p0 fs).coyote = 0 := by
      rw [i4, hcoy0, max_eq_left (by linarith)]
    have hrp : (runFrames p0 fs).prevJumpDown = false := by
      rw [i5, hprev0, ite_self]
    obtain ⟨lic, lib, lis, lid, -, -, -, -, -⟩ :=
      handleInput_press (runFrames p0 fs) fp.dt fp.keys hjp hdp hrp
    have hmc : (midFrame (runFrames p0 fs) fp).coyote = 0 := lic.trans hrc
    have hms : (midFrame (runFrames p0 fs) fp).suppressJump = 0 := by
      have h : (midFrame (runFrames p0 fs) fp).suppressJump =
          tickOne (runFrames p0 fs).suppressJump fp.dt := lis
      rw [i2, tickOne_zero] at h; exact h
    have hmd : (midFrame (runFrames p0 fs) fp).dropIntent = 0 := by
      have h : (midFrame (runFrames p0 fs) fp).dropIntent =
          tickOne (runFrames p0 fs).dropIntent fp.dt := lid
      rw [i1, tickOne_zero] at h; exact h
    have hnf := afterPhysics_nofire (midFrame (runFrames p0 fs) fp) fp.dt
      hmidair hmd hms (Or.inr hmc)
    have hfr : frame (runFrames p0 fs) fp =
        afterPhysics (midFrame (runFrames p0 fs) fp) fp.dt := rfl
    rw [hfr, hnf]
    exact ⟨rfl, hmidair, rfl⟩

set_option maxHeartbeats 4000000 in
/-- C5, witness: press 0.15 s after leaving the ledge fires the jump;
with the first airborne frame lasting 0.25 s the later press fires
nothing. -/
theorem C5_coyote_witness :
    (airborneRun ledgePlayer [coastF0] = true ∧
     (midFrame (runFrames ledgePlayer [coastF0]) pressF0).ent.on_ground = false ∧
     sumDt [coastF0] + pressF0.dt < COYOTE_TIME ∧
     (frame (runFrames ledgePlayer [coastF0]) pressF0).ent.vely = -JUMP_SPEED) ∧
    (COYOTE_TIME ≤ sumDt [coastF1] ∧
     (frame (runFrames ledgePlayer [coastF1]) pressF1).ent.vely =
       (midFrame (runFrames ledgePlayer [coastF1]) pressF1).ent.vely ∧
     (frame (runFrames ledgePlayer [coastF1]) pressF1).ent.on_ground = false) :=
  ⟨⟨by norm_num [frame, midFrame, runFrames, physStep, handleInput,
      afterPhysics, moveAndCollide, afterVertical, afterHorizontal,
      rectAfterSolids, velAfterSolids, ogAfterSolids, oneWayHits, prevBottom,
      colliderect, hResolve, vResolve, owResolve, tickTimers, tickOne,
      recordJumpIntent, recordDropIntent, nextVelocityX, approach,
      clampToMaxSpeed, psign, keysDir, airborneRun, FRect.setX, FRect.setY,
      min_def, max_def, GRAVITY, TERMINAL_V, MAX_SPEED, FRICTION_AIR,
      FRICTION_GROUND, JUMP_SPEED, COYOTE_TIME, JUMP_BUFFER_TIME,
      ledgePlayer, coastF0, keysNone],
    by norm_num [frame, midFrame, runFrames, physStep, handleInput,
      afterPhysics, moveAndCollide, afterVertical, afterHorizontal,
      rectAfterSolids, velAfterSolids, ogAfterSolids, oneWayHits, prevBottom,
      colliderect, hResolve, vResolve, owResolve, tickTimers, tickOne,
      recordJumpIntent, recordDropIntent, nextVelocityX, approach,
      clampToMaxSpeed, psign, keysDir, airborneRun, FRect.setX, FRect.setY,
      min_def, max_def, GRAVITY, TERMINAL_V, MAX_SPEED, FRICTION_AIR,
      FRICTION_GROUND, JUMP_SPEED, COYOTE_TIME, JUMP_BUFFER_TIME,
      ledgePlayer, coastF0, pressF0, keysNone, keysJump],
    by norm_num [sumDt, coastF0, pressF0, COYOTE_TIME],
    (C5_coyote_time.1 ledgePlayer [coastF0] pressF0 rfl rfl rfl rfl rfl rfl
      (by simp [coastF0, keysNone])
      rfl rfl (by norm_num [pressF0])
      (by norm_num [frame, midFrame, runFrames, physStep, handleInput,
        afterPhysics, moveAndCollide, afterVertical, afterHorizontal,
        rectAfterSolids, velAfterSolids, ogAfterSolids, oneWayHits, prevBottom,
        colliderect, hResolve, vResolve, owResolve, tickTimers, tickOne,
        recordJumpIntent, recordDropIntent, nextVelocityX, approach,
        clampToMaxSpeed, psign, keysDir, airborneRun, FRect.setX, FRect.setY,
        min_def, max_def, GRAVITY, TERMINAL_V, MAX_SPEED, FRICTION_AIR,
        FRICTION_GROUND, JUMP_SPEED, COYOTE_TIME, JUMP_BUFFER_TIME,
        ledgePlayer, coastF0, keysNone])
      (by norm_num [frame, midFrame, runFrames, physStep, handleInput,
        afterPhysics, moveAndCollide, afterVertical, afterHorizontal,
        rectAfterSolids, velAfterSolids, ogAfterSolids, oneWayHits, prevBottom,
        colliderect, hResolve, vResolve, owResolve, tickTimers, tickOne,
        recordJumpIntent, recordDropIntent, nextVelocityX, approach,
        clampToMaxSpeed, psign, keysDir, airborneRun, FRect.setX, FRect.setY,
        min_def, max_def, GRAVITY, TERMINAL_V, MAX_SPEED, FRICTION_AIR,
        FRICTION_GROUND, JUMP_SPEED, COYOTE_TIME, JUMP_BUFFER_TIME,
        ledgePlayer, coastF0, pressF0, keysNone, keysJump])
      (by norm_num [sumDt, coastF0, pressF0, COYOTE_TIME])).1⟩,
   ⟨by norm_num [sumDt, coastF1, COYOTE_TIME],
    (C5_coyote_time.2 ledgePlayer [coastF1] pressF1 rfl rfl rfl rfl rfl rfl
      (by simp [coastF1, keysNone])
      rfl rfl (by norm_num [pressF1])
      (by norm_num [frame, midFrame, runFrames, physStep, handleInput,
        afterPhysics, moveAndCollide, afterVertical, afterHorizontal,
        rectAfterSolids, velAfterSolids, ogAfterSolids, oneWayHits, prevBottom,
        colliderect, hResolve, vResolve, owResolve, tickTimers, tickOne,
        recordJumpIntent, recordDropIntent, nextVelocityX, approach,
        clampToMaxSpeed, psign, keysDir, airborneRun, FRect.setX, FRect.setY,
        min_def, max_def, GRAVITY, TERMINAL_V, MAX_SPEED, FRICTION_AIR,
        FRICTION_GROUND, JUMP_SPEED, COYOTE_TIME, JUMP_BUFFER_TIME,
        ledgePlayer, coastF1, keysNone])
      (by norm_num [frame, midFrame, runFrames, physStep, handleInput,
        afterPhysics, moveAndCollide, afterVertical, afterHorizontal,
        rectAfterSolids, velAfterSolids, ogAfterSolids, oneWayHits, prevBottom,
        colliderect, hResolve, vResolve, owResolve, tickTimers, tickOne,
        recordJumpIntent, recordDropIntent, nextVelocityX, approach,
        clampToMaxSpeed, psign, keysDir, airborneRun, FRect.setX, FRect.setY,
        min_def, max_def, GRAVITY, TERMINAL_V, MAX_SPEED, FRICTION_AIR,
        FRICTION_GROUND, JUMP_SPEED, COYOTE_TIME, JUMP_BUFFER_TIME,
        ledgePlayer, coastF1, pressF1, keysNone, keysJump])
      (by norm_num [sumDt, coastF1, COYOTE_TIME])).1,
    (C5_coyote_time.2 ledgePlayer [coastF1] pressF1 rfl rfl rfl rfl rfl rfl
      (by simp [coastF1, keysNone])
      rfl rfl (by norm_num [pressF1])
      (by norm_num [frame, midFrame, runFrames, physStep, handleInput,
        afterPhysics, moveAndCollide, afterVertical, afterHorizontal,
        rectAfterSolids, velAfterSolids, ogAfterSolids, oneWayHits, prevBottom,
        colliderect, hResolve, vResolve, owResolve, tickTimers, tickOne,
        recordJumpIntent, recordDropIntent, nextVelocityX, approach,
        clampToMaxSpeed, psign, keysDir, airborneRun, FRect.setX, FRect.setY,
        min_def, max_def, GRAVITY, TERMINAL_V, MAX_SPEED, FRICTION_AIR,
        FRICTION_GROUND, JUMP_SPEED, COYOTE_TIME, JUMP_BUFFER_TIME,
        ledgePlayer, coastF1, keysNone])
      (by norm_num [frame, midFrame, runFrames, physStep, handleInput,
        afterPhysics, moveAndCollide, afterVertical, afterHorizontal,
        rectAfterSolids, velAfterSolids, ogAfterSolids, oneWayHits, prevBottom,
        colliderect, hResolve, vResolve, owResolve, tickTimers, tickOne,
        recordJumpIntent, recordDropIntent, nextVelocityX, approach,
        clampToMaxSpeed, psign, keysDir, airborneRun, FRect.setX, FRect.setY,
        min_def, max_def, GRAVITY, TERMINAL_V, MAX_SPEED, FRICTION_AIR,
        FRICTION_GROUND, JUMP_SPEED, COYOTE_TIME, JUMP_BUFFER_TIME,
        ledgePlayer, coastF1, pressF1, keysNone, keysJump])
      (by norm_num [sumDt, coastF1, COYOTE_TIME])).2.1⟩⟩

end SuperCat
